import Mathlib

set_option maxRecDepth 16384

/-!
Verification development for the GNSS streaming transport and
message-framing engine of the XPLR-IOT-1 location example repository
(`src/ubxlib/gnss/src/u_gnss_private.c`).

The shallow embedding below models:

* the three protocol parsers (`uGnssPrivateParseUbx`,
  `uGnssPrivateParseNmea`, `uGnssPrivateParseRtcm`) as functions over the
  list of bytes currently available at a ring-buffer read cursor (a byte
  is a `Nat` that callers keep below 256, mirroring `uint8_t`);
* the message-id matchers (`nmeaIdMatch`, `ubxIdMatch`,
  `uGnssPrivateMessageIdIsWanted`);
* the ring-buffer decode loop (`uGnssPrivateStreamDecodeRingBuffer`), the
  stream filler (`uGnssPrivateStreamFillRingBuffer`) and the stream
  receiver (`uGnssPrivateReceiveStreamMessage`) as explicit state-passing
  functions with a millisecond clock and a fuel argument (the fuel only
  bounds the number of loop iterations that are simulated; `none` means
  the simulated run did not finish within the given fuel).

The ring-buffer implementation itself (`u_ringbuffer.c`) and the ubxlib
headers with the error-code and configuration constants are not part of
the source tree; those collaborators are modelled from the spec and are
marked `Modelled from the spec:` in their doc comments.
-/

namespace UGnss

/-- Modelled from the spec: error codes of `u_error_common.h` and
`u_gnss_type.h`, which are not in the source tree.  The spec's error
taxonomy only requires success to be zero, frame lengths to be positive
and the failure codes to be distinct negative values, so the exact
numbers are immaterial; distinct negative values are used. -/
def U_ERROR_COMMON_SUCCESS : Int := 0

/-- Modelled from the spec: generic failure code (see
`U_ERROR_COMMON_SUCCESS`). -/
def U_ERROR_COMMON_UNKNOWN : Int := -1

/-- Modelled from the spec: caller contract violation code (see
`U_ERROR_COMMON_SUCCESS`). -/
def U_ERROR_COMMON_INVALID_PARAMETER : Int := -5

/-- Modelled from the spec: allocation failure code (see
`U_ERROR_COMMON_SUCCESS`). -/
def U_ERROR_COMMON_NO_MEMORY : Int := -6

/-- Modelled from the spec: deadline-reached code (see
`U_ERROR_COMMON_SUCCESS`). -/
def U_ERROR_COMMON_TIMEOUT : Int := -9

/-- Modelled from the spec: parse-mismatch code (see
`U_ERROR_COMMON_SUCCESS`). -/
def U_ERROR_COMMON_NOT_FOUND : Int := -14

/-- Modelled from the spec: the dedicated "command was rejected" code,
distinct from every `U_ERROR_COMMON_*` value. -/
def U_GNSS_ERROR_NACK : Int := -1025

/-- Modelled from the spec: the UBX wildcard value for the id byte
("either byte may be a wildcard value (0xFF)"); from `u_gnss_type.h`,
which is not in the source tree. -/
def U_GNSS_UBX_MESSAGE_ID_ALL : Nat := 0xFF

/-- Modelled from the spec: the UBX wildcard value for the class byte;
from `u_gnss_type.h`, which is not in the source tree. -/
def U_GNSS_UBX_MESSAGE_CLASS_ALL : Nat := 0xFF

/-- Modelled from the spec: the maximum NMEA talker/sentence token length
(`U_GNSS_NMEA_MESSAGE_MATCH_LENGTH_CHARACTERS`, from `u_gnss_private.h`,
not in the source tree).  Its concrete value does not matter for the
claims; a plausible value is used. -/
def U_GNSS_NMEA_MESSAGE_MATCH_LENGTH_CHARACTERS : Nat := 13

/-- Outcome of one protocol parser run against the bytes available at a
ring-buffer parse cursor, per the shared parser contract (spec section
4.1): `timeout` means not enough bytes yet, `notFound` means the bytes
cannot be this protocol's framing, `success` carries the decoded message
identity and the total number of bytes the parser consumed. -/
inductive ParseOutcome (α : Type) where
  | timeout : ParseOutcome α
  | notFound : ParseOutcome α
  | success (msgId : α) (consumed : Nat) : ParseOutcome α
deriving DecidableEq, Repr

/-- The running two-accumulator UBX checksum step: `cka += byte;
ckb += cka` on `uint8_t` accumulators (`uGnssPrivateParseUbx`). -/
def ubxCkStep (p : Nat × Nat) (b : Nat) : Nat × Nat :=
  (((p.1 + b) % 256), ((p.2 + ((p.1 + b) % 256)) % 256))

/-- The UBX checksum accumulators after feeding `bs`, starting from `p`. -/
def ubxCkFrom (p : Nat × Nat) (bs : List Nat) : Nat × Nat :=
  bs.foldl ubxCkStep p

/-- The UBX checksum accumulators over `bs` starting from zero. -/
def ubxCk (bs : List Nat) : Nat × Nat :=
  ubxCkFrom (0, 0) bs

/-- Embedding of `uGnssPrivateParseUbx` (u_gnss_private.c lines 606-667):
sync bytes 0xB5 0x62, class, id, little-endian 16-bit length, `l` body
bytes, then two checksum bytes which must match the running checksum over
class, id, length bytes and body.  The byte list is the data available at
the parse cursor; reading past its end is the `timeout` case. -/
def uGnssPrivateParseUbx (bs : List Nat) : ParseOutcome Nat :=
  match bs with
  | [] => .timeout
  | b0 :: t0 =>
    if b0 ≠ 0xB5 then .notFound
    else match t0 with
      | [] => .timeout
      | b1 :: t1 =>
        if b1 ≠ 0x62 then .notFound
        else if t1.length < 4 then .timeout
        else match t1 with
          | [] => .timeout
          | [_] => .timeout
          | [_, _] => .timeout
          | [_, _, _] => .timeout
          | cls :: id :: ll :: lh :: t2 =>
            let l := ll + lh * 256
            if t2.length < l then .timeout
            else
              let ck := ubxCk ([cls, id, ll, lh] ++ t2.take l)
              match t2.drop l with
              | [] => .timeout
              | ca :: t3 =>
                if ca ≠ ck.1 then .notFound
                else match t3 with
                  | [] => .timeout
                  | cb :: _ =>
                    if cb ≠ ck.2 then .notFound
                    else .success (cls * 256 + id) (8 + l)

/-- A UBX wire frame with explicitly given trailing checksum bytes:
sync bytes, class, id, little-endian 16-bit length, body, then the two
given bytes. -/
def mkUbxFrameCk (cls id : Nat) (body : List Nat) (c1 c2 : Nat) : List Nat :=
  [0xB5, 0x62, cls, id, body.length % 256, body.length / 256] ++ body ++ [c1, c2]

/-- Serialization of a UBX frame as described by the spec (sync bytes,
class, id, little-endian 16-bit length, body, two checksum bytes computed
by the running `cka += byte; ckb += cka` algorithm).  This is the
claim-side definition of a valid UBX frame. -/
def mkUbxFrame (cls id : Nat) (body : List Nat) : List Nat :=
  let ck := ubxCk ([cls, id, body.length % 256, body.length / 256] ++ body)
  mkUbxFrameCk cls id body ck.1 ck.2

/-- The characters `0123456789ABCDEF` (as bytes) used by the NMEA parser
to check the two checksum digits. -/
def nmeaHexDigit (n : Nat) : Nat :=
  [48, 49, 50, 51, 52, 53, 54, 55, 56, 57, 65, 66, 67, 68, 69, 70].getD n 0

/-- Result of the NMEA talker/sentence-token loop of
`uGnssPrivateParseNmea`: either a hard parse failure, or the loop is left
(on `,`, which is included in the running XOR, or on running out of
bytes) with the running XOR value, the accumulated token and the
remaining bytes. -/
inductive NmeaTokenRes where
  | fail : NmeaTokenRes
  | done (crc : Nat) (tok : List Char) (rest : List Nat) : NmeaTokenRes
deriving DecidableEq, Repr

/-- The first loop of `uGnssPrivateParseNmea` (u_gnss_private.c lines
688-700): read characters, XOR each into the running checksum, stop at
`,`; fail if the token exceeds the configured maximum length or a
character is outside `0-9`,`A-Z`. -/
def uGnssPrivateParseNmeaToken (bs : List Nat) (crc : Nat) (tok : List Char) : NmeaTokenRes :=
  match bs with
  | [] => .done crc tok []
  | ch :: rest =>
    let crc2 := crc ^^^ ch
    if ch = 44 then .done crc2 tok rest
    else if tok.length ≥ U_GNSS_NMEA_MESSAGE_MATCH_LENGTH_CHARACTERS then .fail
    else if 48 > ch ∨ 90 < ch ∨ (57 < ch ∧ 65 > ch) then .fail
    else uGnssPrivateParseNmeaToken rest crc2 (tok ++ [Char.ofNat ch])

/-- Result of the body loop of `uGnssPrivateParseNmea`: a hard failure
(non-printable character), the terminating `*` (not included in the XOR),
or stream exhaustion. -/
inductive NmeaBodyRes where
  | fail : NmeaBodyRes
  | star (crc : Nat) (rest : List Nat) : NmeaBodyRes
  | exhausted : NmeaBodyRes
deriving DecidableEq, Repr

/-- The second loop of `uGnssPrivateParseNmea` (u_gnss_private.c lines
702-710): XOR printable characters into the checksum until `*`. -/
def uGnssPrivateParseNmeaBody (bs : List Nat) (crc : Nat) : NmeaBodyRes :=
  match bs with
  | [] => .exhausted
  | ch :: rest =>
    if 32 > ch ∨ 126 < ch then .fail
    else if ch = 42 then .star crc rest
    else uGnssPrivateParseNmeaBody rest (crc ^^^ ch)

/-- Embedding of `uGnssPrivateParseNmea` (u_gnss_private.c lines
675-737): leading `$`, talker/sentence token, XOR checksum over all
characters after `$` up to `*` (the token-terminating `,` included), two
hex checksum digits, then CR LF.  On success the consumed count is the
whole sentence length. -/
def uGnssPrivateParseNmea (bs : List Nat) : ParseOutcome (List Char) :=
  match bs with
  | [] => .timeout
  | b0 :: t0 =>
    if b0 ≠ 36 then .notFound
    else match uGnssPrivateParseNmeaToken t0 0 [] with
      | .fail => .notFound
      | .done crc tok r1 =>
        match uGnssPrivateParseNmeaBody r1 crc with
        | .fail => .notFound
        | .exhausted => .timeout
        | .star crc2 r2 =>
          match r2 with
          | [] => .timeout
          | h1 :: r3 =>
            if h1 ≠ nmeaHexDigit ((crc2 >>> 4) &&& 0xF) then .notFound
            else match r3 with
              | [] => .timeout
              | h2 :: r4 =>
                if h2 ≠ nmeaHexDigit (crc2 &&& 0xF) then .notFound
                else match r4 with
                  | [] => .timeout
                  | c1 :: r5 =>
                    if c1 ≠ 13 then .notFound
                    else match r5 with
                      | [] => .timeout
                      | c2 :: r6 =>
                        if c2 ≠ 10 then .notFound
                        else .success tok (bs.length - r6.length)

/-- The CRC-24Q lookup table embedded literally in
`uGnssPrivateParseRtcm` (u_gnss_private.c lines 769-802). -/
def crc24qTable : List Nat := [
    0x000000, 0x864cfb, 0x8ad50d, 0x0c99f6, 0x93e6e1, 0x15aa1a, 0x1933ec, 0x9f7f17,
    0xa18139, 0x27cdc2, 0x2b5434, 0xad18cf, 0x3267d8, 0xb42b23, 0xb8b2d5, 0x3efe2e,
    0xc54e89, 0x430272, 0x4f9b84, 0xc9d77f, 0x56a868, 0xd0e493, 0xdc7d65, 0x5a319e,
    0x64cfb0, 0xe2834b, 0xee1abd, 0x685646, 0xf72951, 0x7165aa, 0x7dfc5c, 0xfbb0a7,
    0x0cd1e9, 0x8a9d12, 0x8604e4, 0x00481f, 0x9f3708, 0x197bf3, 0x15e205, 0x93aefe,
    0xad50d0, 0x2b1c2b, 0x2785dd, 0xa1c926, 0x3eb631, 0xb8faca, 0xb4633c, 0x322fc7,
    0xc99f60, 0x4fd39b, 0x434a6d, 0xc50696, 0x5a7981, 0xdc357a, 0xd0ac8c, 0x56e077,
    0x681e59, 0xee52a2, 0xe2cb54, 0x6487af, 0xfbf8b8, 0x7db443, 0x712db5, 0xf7614e,
    0x19a3d2, 0x9fef29, 0x9376df, 0x153a24, 0x8a4533, 0x0c09c8, 0x00903e, 0x86dcc5,
    0xb822eb, 0x3e6e10, 0x32f7e6, 0xb4bb1d, 0x2bc40a, 0xad88f1, 0xa11107, 0x275dfc,
    0xdced5b, 0x5aa1a0, 0x563856, 0xd074ad, 0x4f0bba, 0xc94741, 0xc5deb7, 0x43924c,
    0x7d6c62, 0xfb2099, 0xf7b96f, 0x71f594, 0xee8a83, 0x68c678, 0x645f8e, 0xe21375,
    0x15723b, 0x933ec0, 0x9fa736, 0x19ebcd, 0x8694da, 0x00d821, 0x0c41d7, 0x8a0d2c,
    0xb4f302, 0x32bff9, 0x3e260f, 0xb86af4, 0x2715e3, 0xa15918, 0xadc0ee, 0x2b8c15,
    0xd03cb2, 0x567049, 0x5ae9bf, 0xdca544, 0x43da53, 0xc596a8, 0xc90f5e, 0x4f43a5,
    0x71bd8b, 0xf7f170, 0xfb6886, 0x7d247d, 0xe25b6a, 0x641791, 0x688e67, 0xeec29c,
    0x3347a4, 0xb50b5f, 0xb992a9, 0x3fde52, 0xa0a145, 0x26edbe, 0x2a7448, 0xac38b3,
    0x92c69d, 0x148a66, 0x181390, 0x9e5f6b, 0x01207c, 0x876c87, 0x8bf571, 0x0db98a,
    0xf6092d, 0x7045d6, 0x7cdc20, 0xfa90db, 0x65efcc, 0xe3a337, 0xef3ac1, 0x69763a,
    0x578814, 0xd1c4ef, 0xdd5d19, 0x5b11e2, 0xc46ef5, 0x42220e, 0x4ebbf8, 0xc8f703,
    0x3f964d, 0xb9dab6, 0xb54340, 0x330fbb, 0xac70ac, 0x2a3c57, 0x26a5a1, 0xa0e95a,
    0x9e1774, 0x185b8f, 0x14c279, 0x928e82, 0x0df195, 0x8bbd6e, 0x872498, 0x016863,
    0xfad8c4, 0x7c943f, 0x700dc9, 0xf64132, 0x693e25, 0xef72de, 0xe3eb28, 0x65a7d3,
    0x5b59fd, 0xdd1506, 0xd18cf0, 0x57c00b, 0xc8bf1c, 0x4ef3e7, 0x426a11, 0xc426ea,
    0x2ae476, 0xaca88d, 0xa0317b, 0x267d80, 0xb90297, 0x3f4e6c, 0x33d79a, 0xb59b61,
    0x8b654f, 0x0d29b4, 0x01b042, 0x87fcb9, 0x1883ae, 0x9ecf55, 0x9256a3, 0x141a58,
    0xefaaff, 0x69e604, 0x657ff2, 0xe33309, 0x7c4c1e, 0xfa00e5, 0xf69913, 0x70d5e8,
    0x4e2bc6, 0xc8673d, 0xc4fecb, 0x42b230, 0xddcd27, 0x5b81dc, 0x57182a, 0xd154d1,
    0x26359f, 0xa07964, 0xace092, 0x2aac69, 0xb5d37e, 0x339f85, 0x3f0673, 0xb94a88,
    0x87b4a6, 0x01f85d, 0x0d61ab, 0x8b2d50, 0x145247, 0x921ebc, 0x9e874a, 0x18cbb1,
    0xe37b16, 0x6537ed, 0x69ae1b, 0xefe2e0, 0x709df7, 0xf6d10c, 0xfa48fa, 0x7c0401,
    0x42fa2f, 0xc4b6d4, 0xc82f22, 0x4e63d9, 0xd11cce, 0x575035, 0x5bc9c3, 0xdd8538]

/-- One step of the RTCM parser's running CRC register update, the
`RTCM_CRC` macro: `((crc << 8) | by) ^ table[(crc >> 16) & 0xff]` on a
`uint32_t` register. -/
def rtcmCrcStep (crc b : Nat) : Nat :=
  (((crc <<< 8) ||| b) ^^^ crc24qTable.getD ((crc >>> 16) &&& 0xFF) 0) % 4294967296

/-- Embedding of `uGnssPrivateParseRtcm` (u_gnss_private.c lines
745-825): sync byte 0xD3, reserved bits must be zero, `l` is the 10-bit
length field plus 2, two type bytes are read and fed to the CRC, then `l`
further bytes are read and fed to the CRC, and the 24-bit CRC register
must end at zero.  On success the consumed count is `5 + l`. -/
def uGnssPrivateParseRtcm (bs : List Nat) : ParseOutcome Nat :=
  match bs with
  | [] => .timeout
  | b0 :: t0 =>
    if b0 ≠ 0xD3 then .notFound
    else match t0 with
      | [] => .timeout
      | b1 :: t1 =>
        if (0xFC &&& b1) ≠ 0 then .notFound
        else match t1 with
          | [] => .timeout
          | b2 :: t2 =>
            let l := ((b1 &&& 0x3) <<< 8) + b2 + 2
            match t2 with
            | [] => .timeout
            | idLo :: t3 =>
              let crc1 := rtcmCrcStep 0 idLo
              match t3 with
              | [] => .timeout
              | idHi :: t4 =>
                let crc2 := rtcmCrcStep crc1 idHi
                let msgId := (idHi >>> 4) + (idLo <<< 4)
                if l > t4.length then .timeout
                else
                  let crc3 := (t4.take l).foldl rtcmCrcStep crc2
                  if (crc3 &&& 0xFFFFFF) ≠ 0 then .notFound
                  else .success msgId (5 + l)

/-- One step of the standard CRC-24Q computation (generator polynomial
0x1864CFB, MSB first, no initial or final XOR), as prescribed by the RTCM
standard the spec refers to.  This is the claim-side definition used to
say what a valid RTCM frame is; it is deliberately written bit by bit,
independently of the parser's lookup table. -/
def stdCrc24Step (r b : Nat) : Nat :=
  (List.range 8).foldl
    (fun s _ => if s &&& 0x800000 ≠ 0 then ((s <<< 1) ^^^ 0x1864CFB) &&& 0xFFFFFF
                else (s <<< 1) &&& 0xFFFFFF)
    (r ^^^ (b <<< 16))

/-- Standard CRC-24Q of a byte sequence (see `stdCrc24Step`). -/
def stdCrc24 (bs : List Nat) : Nat :=
  bs.foldl stdCrc24Step 0

/-- A valid RTCM frame per the RTCM standard, as described by the claim:
sync byte 0xD3, reserved bits zero, 10-bit big-endian payload length,
payload, and three trailing CRC-24Q bytes computed over the header and
payload.  This is the claim-side definition of a valid RTCM frame. -/
def mkRtcmFrame (payload : List Nat) : List Nat :=
  let hdr := [0xD3, payload.length / 256, payload.length % 256]
  let crc := stdCrc24 (hdr ++ payload)
  hdr ++ payload ++ [(crc >>> 16) &&& 0xFF, (crc >>> 8) &&& 0xFF, crc &&& 0xFF]

/-- Embedding of `uGnssPrivateMessageId_t` (tagged union over protocol
kind with a UBX 16-bit id, an NMEA token string or a 12-bit RTCM type). -/
inductive UGnssPrivateMessageId where
  | ubx (id : Nat) : UGnssPrivateMessageId
  | nmea (id : List Char) : UGnssPrivateMessageId
  | rtcm (id : Nat) : UGnssPrivateMessageId
  | unknown : UGnssPrivateMessageId
  | any : UGnssPrivateMessageId
  | all : UGnssPrivateMessageId
deriving DecidableEq, Repr

/-- Embedding of `nmeaIdMatch` (u_gnss_private.c lines 163-183).  A C
string argument is modelled as `Option (List Char)`: `none` is a NULL
pointer and the list holds the characters before the terminator. -/
def nmeaIdMatchGo : List Char → List Char → Bool
  | [], _ => true
  | _ :: _, [] => false
  | w :: ws, a :: as =>
    if w = '?' ∨ w = a then nmeaIdMatchGo ws as else false

/-- Embedding of `nmeaIdMatch` proper: a NULL wanted string matches
anything; a NULL actual string matches nothing else; otherwise walk the
wanted string, requiring the actual string to still have characters and
each wanted character to be `?` or equal to the actual one. -/
def nmeaIdMatch (pNmeaIdActual pNmeaIdWanted : Option (List Char)) : Bool :=
  match pNmeaIdWanted with
  | none => true
  | some ws =>
    match pNmeaIdActual with
    | none => false
    | some as => nmeaIdMatchGo ws as

/-- Embedding of `ubxIdMatch` (u_gnss_private.c lines 186-196): if the
wanted id's low byte is the wildcard, force the actual id's low byte to
the wildcard too; same for the class byte; then compare for equality. -/
def ubxIdMatch (ubxIdActual ubxIdWanted : Nat) : Bool :=
  let a1 := if (ubxIdWanted &&& U_GNSS_UBX_MESSAGE_ID_ALL) = U_GNSS_UBX_MESSAGE_ID_ALL
            then ubxIdActual ||| U_GNSS_UBX_MESSAGE_ID_ALL else ubxIdActual
  let a2 := if (ubxIdWanted &&& (U_GNSS_UBX_MESSAGE_CLASS_ALL <<< 8)) =
               (U_GNSS_UBX_MESSAGE_CLASS_ALL <<< 8)
            then a1 ||| (U_GNSS_UBX_MESSAGE_CLASS_ALL <<< 8) else a1
  a2 = ubxIdWanted

/-- Embedding of `uGnssPrivateMessageIdIsWanted` (u_gnss_private.c lines
1178-1203), with the source's branch order: `ANY` matches everything,
`ALL` everything of known type, `UNKNOWN` only unknown, RTCM by exact
type equality, NMEA via `nmeaIdMatch`, UBX via `ubxIdMatch`. -/
def uGnssPrivateMessageIdIsWanted (pMessageId pMessageIdWanted : UGnssPrivateMessageId) : Bool :=
  match pMessageIdWanted, pMessageId with
  | .any, _ => true
  | .all, .unknown => false
  | .all, _ => true
  | .unknown, .unknown => true
  | .rtcm w, .rtcm a => a = w
  | .nmea w, .nmea a => nmeaIdMatch (some a) (some w)
  | .ubx w, .ubx a => ubxIdMatch a w
  | _, _ => false

/-- Result of one run of the ring buffer's parser dispatch: a successful
decode with its identity and consumed length, "need more data", or "no
parser recognises the data". -/
inductive DispatchRes where
  | ok (msg : UGnssPrivateMessageId) (len : Nat) : DispatchRes
  | needMore : DispatchRes
  | noMatch : DispatchRes
deriving DecidableEq, Repr

/-- Modelled from the spec: `uRingBufferParseHandle` of `u_ringbuffer.c`
(not in the source tree), the "dispatch primitive that tries an ordered
list of parser functions against a cursor and returns the first
successful decode's length plus an out-parameter carrying parser-specific
decoded identity".  The parser list is the one built in
`uGnssPrivateStreamDecodeRingBuffer`: UBX, then NMEA, then RTCM.  A
parser's `timeout` means the data could still become a frame of that
protocol, so the dispatch reports "need more data"; only if every parser
reports `notFound` is the data rejected.  The cursor is only peeked: the
dispatch consumes nothing. -/
def uRingBufferParseHandle (bs : List Nat) : DispatchRes :=
  match uGnssPrivateParseUbx bs with
  | .success id n => .ok (.ubx id) n
  | .timeout => .needMore
  | .notFound =>
    match uGnssPrivateParseNmea bs with
    | .success tok n => .ok (.nmea tok) n
    | .timeout => .needMore
    | .notFound =>
      match uGnssPrivateParseRtcm bs with
      | .success id n => .ok (.rtcm id) n
      | .timeout => .needMore
      | .notFound => .noMatch

/-- The loop of `uGnssPrivateStreamDecodeRingBuffer` (u_gnss_private.c
lines 1274-1328) over the bytes at the read cursor.  Returns the
function's `errorCodeOrLength`, the message-id out-parameter (equal to
the wanted pattern unless a match overwrote it) and the bytes left at the
cursor.  `none` means the simulation ran out of fuel. -/
def streamDecodeGo (pPrivateMessageId : UGnssPrivateMessageId) :
    Nat → List Nat → Option (Int × UGnssPrivateMessageId × List Nat)
  | 0, _ => none
  | fuel + 1, data =>
    match uRingBufferParseHandle data with
    | .needMore => some (U_ERROR_COMMON_TIMEOUT, pPrivateMessageId, data)
    | .noMatch => some (U_ERROR_COMMON_NOT_FOUND, pPrivateMessageId, data)
    | .ok msg len =>
      if uGnssPrivateMessageIdIsWanted msg pPrivateMessageId then
        some ((len : Int), msg, data)
      else
        match pPrivateMessageId, msg with
        | .ubx w, .ubx a =>
          if a = 0x0500 ∧ len = 10 then
            let k := min 10 data.length
            let frame10 := data.take k
            let data2 := data.drop k
            if k = 10 then
              if ubxIdMatch (((frame10.getD 6 0) <<< 8) ||| frame10.getD 7 0) w then
                some (U_GNSS_ERROR_NACK, .ubx w, data2)
              else streamDecodeGo (.ubx w) fuel data2
            else streamDecodeGo (.ubx w) fuel data2
          else streamDecodeGo (.ubx w) fuel (data.drop (min len data.length))
        | _, _ => streamDecodeGo pPrivateMessageId fuel (data.drop (min len data.length))

/-- Embedding of `uGnssPrivateStreamDecodeRingBuffer` (u_gnss_private.c
lines 1268-1331): repeatedly dispatch the parsers at the read cursor; a
wanted frame is reported with its length (cursor not consumed); an
unwanted UBX ACK-NACK frame of length 10 whose embedded class/id bytes
(bytes 6 and 7) match the wanted UBX pattern is consumed and reported as
the dedicated NACK error; any other unwanted frame is consumed
(discarded) and scanning continues; a dispatch failure ends the loop with
that error. -/
def uGnssPrivateStreamDecodeRingBuffer (pPrivateMessageId : UGnssPrivateMessageId)
    (data : List Nat) : Option (Int × UGnssPrivateMessageId × List Nat) :=
  streamDecodeGo pPrivateMessageId (data.length + 1) data

/-- Modelled from the spec: the maximum number of bytes a forced add can
put into the ring buffer (`uRingBufferAvailableSizeMax`).  Since a forced
add may overwrite the oldest unread data ("the filler never blocks the
producer"), this is a constant of the buffer, not a function of its
content. -/
def U_RING_BUFFER_AVAILABLE_SIZE_MAX : Nat := 1024

/-- Modelled from the spec: the length of the temporary linear buffer
used by the stream filler (`U_GNSS_MSG_TEMPORARY_BUFFER_LENGTH_BYTES`,
from `u_gnss_msg.h`, not in the source tree).  The exact value is
immaterial to the claims. -/
def U_GNSS_MSG_TEMPORARY_BUFFER_LENGTH_BYTES : Nat := 128

/-- Modelled from the spec: the minimum fill time
(`U_GNSS_RING_BUFFER_MIN_FILL_TIME_MS`, from `u_gnss_private.h`, not in
the source tree).  The exact value is immaterial to the claims. -/
def U_GNSS_RING_BUFFER_MIN_FILL_TIME_MS : Nat := 20

/-- State of a simulated streaming run: the bytes in the ring buffer
ahead of the read cursor, a millisecond clock, and the read handle's
lock counter (a lock call adds one, an unlock call subtracts one; the
claim-relevant fact is balance, so a counter is used). -/
structure StreamState where
  data : List Nat
  now : Nat
  locks : Int
deriving DecidableEq, Repr

/-- The loop of `uGnssPrivateStreamFillRingBuffer` (u_gnss_private.c
lines 1376-1441), with the transport modelled as `env`: the bytes the
transport would deliver if polled at a given clock value (so
`uGnssPrivateStreamGetReceiveSize` is the length of `env st.now`).  Each
poll iteration advances the clock by one millisecond (a read costs time);
the relax branch additionally advances it by the 10 ms of
`uPortTaskBlock(10)`.  Transport errors are not modelled.  `none` means
the simulation ran out of fuel (which, for a run that loops without
bound, is every fuel value). -/
def fillGo (env : Nat → List Nat) (timeoutMs maxTimeMs startTimeMs : Nat) :
    Nat → Nat → StreamState → Option (Int × StreamState)
  | 0, _, _ => none
  | fuel + 1, total, st =>
    let avail := (env st.now).length
    let ringAvail := U_RING_BUFFER_AVAILABLE_SIZE_MAX
    let want := min avail ringAvail
    let rcv := min want U_GNSS_MSG_TEMPORARY_BUFFER_LENGTH_BYTES
    if want > 0 then
      let st2 : StreamState :=
        { st with data := st.data ++ (env st.now).take rcv, now := st.now + 1 }
      let total2 := total + rcv
      if (timeoutMs > 0) ∧ (ringAvail > 0) ∧
         ((total2 = 0 ∧ st2.now - startTimeMs < timeoutMs) ∨
          (rcv > 0 ∧ (maxTimeMs = 0 ∨ st2.now - startTimeMs < maxTimeMs))) then
        fillGo env timeoutMs maxTimeMs startTimeMs fuel total2 st2
      else
        some ((total2 : Int), st2)
    else
      let now2 : Nat :=
        if ringAvail > 0 ∧ timeoutMs > 0 then st.now + 1 + 10 else st.now + 1
      let st2 : StreamState := { st with now := now2 }
      if (timeoutMs > 0) ∧ (ringAvail > 0) ∧
         (total = 0 ∧ now2 - startTimeMs < timeoutMs) then
        fillGo env timeoutMs maxTimeMs startTimeMs fuel total st2
      else
        some (if total > 0 then (total : Int) else U_ERROR_COMMON_TIMEOUT, st2)

/-- Embedding of `uGnssPrivateStreamFillRingBuffer` (u_gnss_private.c
lines 1337-1450): poll the transport, append what arrived to the ring
buffer, relax for 10 ms between empty polls; loop while nothing has been
received within the `timeoutMs` budget or, once data has started
arriving, while every poll returns data and the `maxTimeMs` budget (no
budget if zero) has not elapsed. -/
def uGnssPrivateStreamFillRingBuffer (env : Nat → List Nat)
    (timeoutMs maxTimeMs : Nat) (st : StreamState) (fuel : Nat) :
    Option (Int × StreamState) :=
  fillGo env timeoutMs maxTimeMs st.now fuel 0 st

/-- Accumulated state of a simulated `uGnssPrivateReceiveStreamMessage`
run: the stream state, the bytes copied out to the caller's (or the
allocated) buffer, whether a buffer exists yet, its capacity, the pending
discard count, the current `errorCodeOrLength` and the message-id
out-parameter. -/
structure RecvAcc where
  st : StreamState
  out : List Nat
  hasBuf : Bool
  bufSize : Nat
  discard : Nat
  err : Int
  msgOut : UGnssPrivateMessageId
deriving DecidableEq, Repr

/-- One pass of the body of the `uGnssPrivateReceiveStreamMessage` loop
after the fill: process any pending discard, then (if none is left)
attempt a decode; on a decoded frame either read it into the caller's
buffer (recording any overflow as discard), allocate a buffer first
(`allocOk` is the outcome `malloc` would have), or record the no-memory
failure.  `none` means the decode simulation ran out of fuel. -/
def receiveIter (pPrivateMessageId : UGnssPrivateMessageId) (size : Nat)
    (allocOk : Bool) (st1 : StreamState) (acc : RecvAcc) : Option RecvAcc :=
  let acc1 : RecvAcc := { acc with st := st1 }
  if st1.data.length > 0 then
    let d := min acc1.discard st1.data.length
    let accD : RecvAcc := { acc1 with
      st := { st1 with data := st1.data.drop d }, discard := acc1.discard - d }
    if accD.discard = 0 then
      match uGnssPrivateStreamDecodeRingBuffer pPrivateMessageId accD.st.data with
      | none => none
      | some (e, m, data3) =>
        let accE : RecvAcc := { accD with
          st := { accD.st with data := data3 }, err := e, msgOut := m }
        if e > 0 then
          let eN := e.toNat
          if accE.hasBuf then
            let copy := min eN size
            some { accE with
              discard := accE.discard + (eN - copy),
              out := accE.st.data.take copy,
              st := { accE.st with data := accE.st.data.drop copy },
              err := if copy > 0 then (copy : Int) else U_ERROR_COMMON_TIMEOUT }
          else
            if allocOk then
              some { accE with
                hasBuf := true, bufSize := eN,
                out := accE.st.data.take eN,
                st := { accE.st with data := accE.st.data.drop eN },
                err := (eN : Int) }
            else
              some { accE with discard := eN, err := U_ERROR_COMMON_NO_MEMORY }
        else
          some accE
    else
      some accD
  else
    some acc1

/-- The loop of `uGnssPrivateReceiveStreamMessage` proper: fill, process
one iteration (`receiveIter`), relax for 10 ms if the fill brought
nothing, and repeat while nothing has been captured (and no NACK or
no-memory ended the attempt) or a discard is pending, within the deadline
and while the keep-going callback answers true. -/
def receiveGo (env : Nat → List Nat) (pPrivateMessageId : UGnssPrivateMessageId)
    (size : Nat) (allocOk : Bool) (timeoutMs : Nat)
    (keepGoing : Nat → Bool) (startTimeMs : Nat) :
    Nat → RecvAcc → Option (Int × RecvAcc)
  | 0, _ => none
  | fuel + 1, acc =>
    let x := if timeoutMs > 0 then U_GNSS_RING_BUFFER_MIN_FILL_TIME_MS else 0
    match uGnssPrivateStreamFillRingBuffer env x 0 acc.st (x + 32) with
    | none => none
    | some (receiveSize, st1) =>
      match receiveIter pPrivateMessageId size allocOk st1 acc with
      | none => none
      | some acc2 =>
        let acc3 : RecvAcc :=
          if receiveSize ≤ 0 ∧ timeoutMs > 0 then
            { acc2 with st := { acc2.st with now := acc2.st.now + 10 } }
          else acc2
        if ((acc3.err < 0 ∧ acc3.err ≠ U_GNSS_ERROR_NACK ∧
             acc3.err ≠ U_ERROR_COMMON_NO_MEMORY) ∨ acc3.discard > 0) ∧
           (timeoutMs > 0) ∧ (acc3.st.now - startTimeMs < timeoutMs) ∧
           (keepGoing acc3.st.now = true) then
          receiveGo env pPrivateMessageId size allocOk timeoutMs
            keepGoing startTimeMs fuel acc3
        else
          some (acc3.err, acc3)

/-- Embedding of `uGnssPrivateReceiveStreamMessage` (u_gnss_private.c
lines 1582-1675): after the parameter check, lock the read cursor, run
the fill/decode/read loop until a frame is captured (or a NACK or
no-memory ends it) and no discard is pending, or the deadline passes or
the keep-going callback says stop; then unlock the cursor.  The result
carries the returned `errorCodeOrLength` and the final simulated state;
`none` means the simulation ran out of fuel. -/
def uGnssPrivateReceiveStreamMessage (env : Nat → List Nat)
    (pPrivateMessageId : UGnssPrivateMessageId) (callerBuf : Bool) (size : Nat)
    (allocOk : Bool) (timeoutMs : Nat) (keepGoing : Nat → Bool)
    (st : StreamState) (fuel : Nat) : Option (Int × RecvAcc) :=
  if callerBuf ∧ size = 0 then
    some (U_ERROR_COMMON_INVALID_PARAMETER,
          ⟨st, [], callerBuf, size, 0, U_ERROR_COMMON_INVALID_PARAMETER,
           pPrivateMessageId⟩)
  else
    let lockSt : StreamState := { st with locks := st.locks + 1 }
    match receiveGo env pPrivateMessageId size allocOk timeoutMs
        keepGoing st.now fuel
        ⟨lockSt, [], callerBuf, size, 0, U_ERROR_COMMON_TIMEOUT,
         pPrivateMessageId⟩ with
    | none => none
    | some (r, acc) =>
      some (r, { acc with st := { acc.st with locks := acc.st.locks - 1 } })

/-- Modelled from the spec: the UBX protocol frame overhead
(`U_UBX_PROTOCOL_OVERHEAD_LENGTH_BYTES`, sync + class + id + length +
checksum = 8 bytes) from `u_ubx_protocol.h`, not in the source tree. -/
def U_UBX_PROTOCOL_OVERHEAD_LENGTH_BYTES : Nat := 8

/-- Modelled from the spec: the UBX protocol header length
(`U_UBX_PROTOCOL_HEADER_LENGTH_BYTES`, sync + class + id + length =
6 bytes) from `u_ubx_protocol.h`, not in the source tree. -/
def U_UBX_PROTOCOL_HEADER_LENGTH_BYTES : Nat := 6

/-- Embedding of `receiveUbxMessageStream` (u_gnss_private.c lines
293-356) for the case where the caller supplied a body buffer of
capacity `bodyCap` (the case used by `uGnssPrivateSendUbxMessage`):
build the wanted UBX pattern from `cls`/`id` (a negative value is the
"don't care" sentinel, filled with the wildcard byte), wait for a
matching message, then strip the protocol overhead, truncate the body to
`bodyCap` and copy it out.  Returns the body length or error, the
received class and id (unchanged on failure) and the copied body. -/
def receiveUbxMessageStream (env : Nat → List Nat) (cls id : Int)
    (bodyCap : Nat) (timeoutMs : Nat) (st : StreamState) (fuel : Nat) :
    Option (Int × Int × Int × List Nat) :=
  let w0 : Nat := (U_GNSS_UBX_MESSAGE_CLASS_ALL <<< 8) ||| U_GNSS_UBX_MESSAGE_ID_ALL
  let w1 : Nat := if cls ≥ 0 then (w0 &&& 0x00FF) ||| (cls.toNat <<< 8) else w0
  let w2 : Nat := if id ≥ 0 then (w1 &&& 0xFF00) ||| id.toNat else w1
  match uGnssPrivateReceiveStreamMessage env (.ubx w2) false 0 true timeoutMs
      (fun _ => true) st fuel with
  | none => none
  | some (e, acc) =>
    if e ≥ (U_UBX_PROTOCOL_OVERHEAD_LENGTH_BYTES : Int) then
      let u := match acc.msgOut with
               | .ubx u => u
               | _ => 0
      let bodyLen0 := e.toNat - U_UBX_PROTOCOL_OVERHEAD_LENGTH_BYTES
      let bodyLen := if bodyLen0 > bodyCap then bodyCap else bodyLen0
      some ((bodyLen : Int), ((u >>> 8 : Nat) : Int), ((u &&& 0xFF : Nat) : Int),
            (acc.out.drop U_UBX_PROTOCOL_HEADER_LENGTH_BYTES).take bodyLen)
    else
      some (e, cls, id, [])

/-- Embedding of `uGnssPrivateSendUbxMessage` (u_gnss_private.c lines
1732-1765), the "send and expect ACK only" variant, applied to the
response traffic modelled by `env`/`st` (the outbound transmission
itself is out of scope): expect class 0x05 with a wildcard id and a
2-byte body buffer; report success exactly per the source's final
classification: body length of 2, received class 0x05, body equal to the
sent class and id, and then success for received id 0x01 and the
dedicated NACK error for any other received id; everything else is the
generic `U_ERROR_COMMON_UNKNOWN`. -/
def uGnssPrivateSendUbxMessage (env : Nat → List Nat)
    (messageClass messageId : Nat) (timeoutMs : Nat) (st : StreamState)
    (fuel : Nat) : Option Int :=
  match receiveUbxMessageStream env 5 (-1) 2 timeoutMs st fuel with
  | none => none
  | some (errorCode, clsOut, idOut, ackBody) =>
    if errorCode = 2 ∧ clsOut = 5 ∧ ackBody.getD 0 0 = messageClass ∧
       ackBody.getD 1 0 = messageId then
      some (if idOut = 1 then U_ERROR_COMMON_SUCCESS else U_GNSS_ERROR_NACK)
    else
      some U_ERROR_COMMON_UNKNOWN

end UGnss

/-!
Theorems.  Helper lemmas come first; the claim theorems (named
`claim_C1` .. `claim_C10`, with witnesses and counterexamples) are at the
end of the file.
-/

namespace UGnss

theorem ubxCkFrom_fst (p : Nat × Nat) (bs : List Nat) (hp : p.1 < 256) :
    (ubxCkFrom p bs).1 = (p.1 + bs.sum) % 256 := by
  induction bs generalizing p with
  | nil => simpa [ubxCkFrom] using (Nat.mod_eq_of_lt hp).symm
  | cons b t ih =>
    have h1 : ubxCkFrom p (b :: t) = ubxCkFrom (ubxCkStep p b) t := rfl
    rw [h1, ih _ (by simp [ubxCkStep]; omega)]
    simp [ubxCkStep, List.sum_cons]
    omega

theorem ubxCk_fst_eq_sum (bs : List Nat) : (ubxCk bs).1 = bs.sum % 256 := by
  simpa [ubxCk] using ubxCkFrom_fst (0, 0) bs (by omega)

theorem parseUbx_mkUbxFrame (cls id : Nat) (body rest : List Nat)
    (hlen : body.length < 65536) :
    uGnssPrivateParseUbx (mkUbxFrame cls id body ++ rest) =
      .success (cls * 256 + id) (8 + body.length) := by
  have hl : body.length % 256 + body.length / 256 * 256 = body.length := by omega
  unfold mkUbxFrame mkUbxFrameCk uGnssPrivateParseUbx
  simp only [List.cons_append, List.nil_append, List.append_assoc]
  simp only [hl, List.length_cons, List.length_append]
  rw [if_neg (by omega), if_neg (by omega)]
  rw [List.take_left, List.drop_left]
  rw [if_neg (by omega), if_neg (by omega)]
  simp

theorem ubx_take_split (u v rest2 : List Nat) (w n : Nat)
    (hn : n = (u ++ w :: v).length) :
    (u ++ w :: (v ++ rest2)).take n = u ++ w :: v := by
  subst hn
  rw [show u ++ w :: (v ++ rest2) = (u ++ w :: v) ++ rest2 from by simp]
  exact List.take_left _ _

theorem ubx_drop_split (u v rest2 : List Nat) (w n : Nat)
    (hn : n = (u ++ w :: v).length) :
    (u ++ w :: (v ++ rest2)).drop n = rest2 := by
  subst hn
  rw [show u ++ w :: (v ++ rest2) = (u ++ w :: v) ++ rest2 from by simp]
  exact List.drop_left _ _

end UGnss

namespace UGnss

theorem parseUbx_corruptBody (cls id : Nat) (u v : List Nat) (old w : Nat)
    (hold : old < 256) (hw : w < 256) (hne : w ≠ old)
    (hlen : (u ++ old :: v).length < 65536) :
    uGnssPrivateParseUbx
      (mkUbxFrameCk cls id (u ++ w :: v)
        (ubxCk ([cls, id, (u ++ old :: v).length % 256,
                 (u ++ old :: v).length / 256] ++ (u ++ old :: v))).1
        (ubxCk ([cls, id, (u ++ old :: v).length % 256,
                 (u ++ old :: v).length / 256] ++ (u ++ old :: v))).2) = .notFound := by
  have hlen2 : (u ++ w :: v).length = (u ++ old :: v).length := by simp
  have hl : (u ++ old :: v).length % 256 + (u ++ old :: v).length / 256 * 256 =
      (u ++ old :: v).length := by omega
  unfold mkUbxFrameCk uGnssPrivateParseUbx
  simp only [hlen2, List.cons_append, List.nil_append, List.append_assoc]
  simp only [hl]
  rw [if_neg (by simp), if_neg (by simp)]
  rw [if_neg ?g1, if_neg ?g2]
  case g1 =>
    simp only [List.length_cons, List.length_append, List.length_nil]
    omega
  case g2 =>
    simp only [List.length_cons, List.length_append, List.length_nil]
    omega
  rw [ubx_take_split u v _ w _ (by simp), ubx_drop_split u v _ w _ (by simp)]
  have hck : (ubxCk (cls :: id :: (u ++ old :: v).length % 256 ::
        (u ++ old :: v).length / 256 :: (u ++ old :: v))).1 ≠
      (ubxCk (cls :: id :: (u ++ old :: v).length % 256 ::
        (u ++ old :: v).length / 256 :: (u ++ w :: v))).1 := by
    rw [ubxCk_fst_eq_sum, ubxCk_fst_eq_sum]
    simp only [List.sum_append, List.sum_cons]
    omega
  simp only [List.length_append, List.length_cons, List.length_nil] at hck
  simp [hck]

theorem parseUbx_corruptCk1 (cls id : Nat) (body : List Nat) (w : Nat)
    (hne : w ≠ (ubxCk ([cls, id, body.length % 256, body.length / 256] ++ body)).1)
    (hlen : body.length < 65536) :
    uGnssPrivateParseUbx
      (mkUbxFrameCk cls id body w
        (ubxCk ([cls, id, body.length % 256, body.length / 256] ++ body)).2) =
      .notFound := by
  have hl : body.length % 256 + body.length / 256 * 256 = body.length := by omega
  simp only [List.cons_append, List.nil_append] at hne
  unfold mkUbxFrameCk uGnssPrivateParseUbx
  simp only [List.cons_append, List.nil_append, List.append_assoc]
  simp only [hl, List.length_cons, List.length_append]
  rw [if_neg (by omega), if_neg (by omega)]
  rw [List.take_left, List.drop_left]
  rw [if_neg (by omega), if_neg (by omega)]
  simp [hne]

theorem parseUbx_corruptCk2 (cls id : Nat) (body : List Nat) (w : Nat)
    (hne : w ≠ (ubxCk ([cls, id, body.length % 256, body.length / 256] ++ body)).2)
    (hlen : body.length < 65536) :
    uGnssPrivateParseUbx
      (mkUbxFrameCk cls id body
        (ubxCk ([cls, id, body.length % 256, body.length / 256] ++ body)).1 w) =
      .notFound := by
  have hl : body.length % 256 + body.length / 256 * 256 = body.length := by omega
  simp only [List.cons_append, List.nil_append] at hne
  unfold mkUbxFrameCk uGnssPrivateParseUbx
  simp only [List.cons_append, List.nil_append, List.append_assoc]
  simp only [hl, List.length_cons, List.length_append]
  rw [if_neg (by omega), if_neg (by omega)]
  rw [List.take_left, List.drop_left]
  rw [if_neg (by omega), if_neg (by omega)]
  simp [hne]

end UGnss

namespace UGnss

theorem lor_mul_pow_two_add (a c : Nat) {b d k : Nat} (hb : b < 2 ^ k) (hd : d < 2 ^ k) :
    (2 ^ k * a + b) ||| (2 ^ k * c + d) = 2 ^ k * (a ||| c) + (b ||| d) := by
  apply Nat.eq_of_testBit_eq
  intro i
  rw [Nat.testBit_lor, Nat.testBit_mul_pow_two_add _ hb, Nat.testBit_mul_pow_two_add _ hd,
      Nat.testBit_mul_pow_two_add _ (Nat.or_lt_two_pow hb hd), Nat.testBit_lor]
  by_cases h : i < k <;> simp [h]

theorem land_mul_pow_two_add (a c : Nat) {b d k : Nat} (hb : b < 2 ^ k) (hd : d < 2 ^ k) :
    (2 ^ k * a + b) &&& (2 ^ k * c + d) = 2 ^ k * (a &&& c) + (b &&& d) := by
  apply Nat.eq_of_testBit_eq
  intro i
  have hbd : b &&& d < 2 ^ k := lt_of_le_of_lt (Nat.and_le_left) hb
  rw [Nat.testBit_land, Nat.testBit_mul_pow_two_add _ hb, Nat.testBit_mul_pow_two_add _ hd,
      Nat.testBit_mul_pow_two_add _ hbd, Nat.testBit_land]
  by_cases h : i < k <;> simp [h]

theorem lor_all_ones {x k : Nat} (hx : x < 2 ^ k) : x ||| (2 ^ k - 1) = 2 ^ k - 1 := by
  apply Nat.eq_of_testBit_eq
  intro i
  rw [Nat.testBit_lor, Nat.testBit_two_pow_sub_one]
  by_cases h : i < k
  · simp [h]
  · have hxi : x.testBit i = false :=
      Nat.testBit_lt_two_pow (lt_of_lt_of_le hx (Nat.pow_le_pow_right (by omega) (by omega)))
    simp [h, hxi]

theorem byte_land_255 {c b : Nat} (hb : b < 256) :
    (256 * c + b) &&& 255 = b := by
  have h : (2 ^ 8 * c + b) &&& (2 ^ 8 * 0 + 255) = 2 ^ 8 * (c &&& 0) + (b &&& 255) :=
    land_mul_pow_two_add c 0 (by norm_num; omega) (by norm_num)
  have h255 : b &&& 255 = b := by
    have := Nat.and_pow_two_sub_one_eq_mod b 8
    norm_num at this
    omega
  simpa [h255] using h

theorem byte_land_65280 {c b : Nat} (hc : c < 256) (hb : b < 256) :
    (256 * c + b) &&& 65280 = 256 * c := by
  have h : (2 ^ 8 * c + b) &&& (2 ^ 8 * 255 + 0) = 2 ^ 8 * (c &&& 255) + (b &&& 0) :=
    land_mul_pow_two_add c 255 (by norm_num; omega) (by norm_num)
  have hc255 : c &&& 255 = c := by
    have := Nat.and_pow_two_sub_one_eq_mod c 8
    norm_num at this
    omega
  simpa [hc255] using h

theorem byte_lor_255 {c b : Nat} (hb : b < 256) :
    (256 * c + b) ||| 255 = 256 * c + 255 := by
  have h : (2 ^ 8 * c + b) ||| (2 ^ 8 * 0 + 255) = 2 ^ 8 * (c ||| 0) + (b ||| 255) :=
    lor_mul_pow_two_add c 0 (by norm_num; omega) (by norm_num)
  have hb255 : b ||| 255 = 255 := by
    have := lor_all_ones (k := 8) (x := b) (by norm_num; omega)
    norm_num at this
    exact this
  simpa [hb255] using h

theorem byte_lor_65280 {c b : Nat} (hc : c < 256) (hb : b < 256) :
    (256 * c + b) ||| 65280 = 65280 + b := by
  have h : (2 ^ 8 * c + b) ||| (2 ^ 8 * 255 + 0) = 2 ^ 8 * (c ||| 255) + (b ||| 0) :=
    lor_mul_pow_two_add c 255 (by norm_num; omega) (by norm_num)
  have hc255 : c ||| 255 = 255 := by
    have := lor_all_ones (k := 8) (x := c) (by norm_num; omega)
    norm_num at this
    exact this
  simp only [hc255, Nat.or_zero] at h
  norm_num at h ⊢
  omega

theorem nmeaIdMatchGo_iff (ws as : List Char) :
    nmeaIdMatchGo ws as = true ↔
      ∀ k, k < ws.length → k < as.length ∧
        (ws.getD k ' ' = '?' ∨ ws.getD k ' ' = as.getD k ' ') := by
  induction ws generalizing as with
  | nil => simp [nmeaIdMatchGo]
  | cons w ws ih =>
    cases as with
    | nil =>
      simp only [nmeaIdMatchGo, List.length_cons, List.length_nil]
      constructor
      · intro h
        exact absurd h (by simp)
      · intro h
        exact absurd (h 0 (by omega)).1 (by omega)
    | cons a as =>
      simp only [nmeaIdMatchGo, List.length_cons]
      by_cases hw : w = '?' ∨ w = a
      · rw [if_pos hw, ih]
        constructor
        · intro h k hk
          cases k with
          | zero => exact ⟨by omega, by simpa using hw⟩
          | succ k =>
            have := h k (by omega)
            exact ⟨by omega, by simpa using this.2⟩
        · intro h k hk
          have := h (k + 1) (by omega)
          exact ⟨by omega, by simpa using this.2⟩
      · rw [if_neg hw]
        constructor
        · intro h
          exact absurd h (by simp)
        · intro h
          have := (h 0 (by omega)).2
          simp only [List.getD_cons_zero] at this
          exact absurd this hw

end UGnss

namespace UGnss

/-- Claim C3: every valid UBX frame (sync 0xB5 0x62, class, id,
little-endian 16-bit length, body, two running-checksum bytes) is
accepted by the UBX parser, which emits message id `class<<8|id` and the
frame's total length; changing any single byte of the body, or either
checksum byte, to a different byte value makes the parser reject with
"not found".  In particular the stream
`B5 62 01 07 04 00 DE AD BE EF 44 3B` (correct checksum) decodes as class
0x01 id 0x07, and corrupting the last checksum byte causes rejection. -/
theorem claim_C3 :
    (∀ cls id : Nat, ∀ body rest : List Nat, cls < 256 → id < 256 →
       body.length < 65536 →
       uGnssPrivateParseUbx (mkUbxFrame cls id body ++ rest) =
         .success (cls * 256 + id) (8 + body.length)) ∧
    (∀ cls id : Nat, ∀ u v : List Nat, ∀ old w : Nat,
       old < 256 → w < 256 → w ≠ old → (u ++ old :: v).length < 65536 →
       uGnssPrivateParseUbx
         (mkUbxFrameCk cls id (u ++ w :: v)
           (ubxCk ([cls, id, (u ++ old :: v).length % 256,
                    (u ++ old :: v).length / 256] ++ (u ++ old :: v))).1
           (ubxCk ([cls, id, (u ++ old :: v).length % 256,
                    (u ++ old :: v).length / 256] ++ (u ++ old :: v))).2) =
         .notFound) ∧
    (∀ cls id : Nat, ∀ body : List Nat, ∀ w : Nat,
       w ≠ (ubxCk ([cls, id, body.length % 256, body.length / 256] ++ body)).1 →
       body.length < 65536 →
       uGnssPrivateParseUbx
         (mkUbxFrameCk cls id body w
           (ubxCk ([cls, id, body.length % 256, body.length / 256] ++ body)).2) =
         .notFound) ∧
    (∀ cls id : Nat, ∀ body : List Nat, ∀ w : Nat,
       w ≠ (ubxCk ([cls, id, body.length % 256, body.length / 256] ++ body)).2 →
       body.length < 65536 →
       uGnssPrivateParseUbx
         (mkUbxFrameCk cls id body
           (ubxCk ([cls, id, body.length % 256, body.length / 256] ++ body)).1 w) =
         .notFound) ∧
    (uGnssPrivateParseUbx
       [0xB5, 0x62, 0x01, 0x07, 0x04, 0x00, 0xDE, 0xAD, 0xBE, 0xEF, 0x44, 0x3B] =
       .success 0x0107 12) ∧
    (∀ w : Nat, w ≠ 0x3B →
       uGnssPrivateParseUbx
         [0xB5, 0x62, 0x01, 0x07, 0x04, 0x00, 0xDE, 0xAD, 0xBE, 0xEF, 0x44, w] =
         .notFound) := by
  refine ⟨?_, ?_, ?_, ?_, by decide, ?_⟩
  · intro cls id body rest _ _ hlen
    exact parseUbx_mkUbxFrame cls id body rest hlen
  · intro cls id u v old w hold hw hne hlen
    exact parseUbx_corruptBody cls id u v old w hold hw hne hlen
  · intro cls id body w hne hlen
    exact parseUbx_corruptCk1 cls id body w hne hlen
  · intro cls id body w hne hlen
    exact parseUbx_corruptCk2 cls id body w hne hlen
  · intro w hw
    have h := parseUbx_corruptCk2 1 7 [0xDE, 0xAD, 0xBE, 0xEF] w
      (by
        intro hcontra
        exact hw (by rw [hcontra]; decide))
      (by decide)
    simpa [mkUbxFrameCk, show (ubxCk [1, 7, 4, 0, 0xDE, 0xAD, 0xBE, 0xEF]).1 = 0x44
      from by decide] using h

/-- Witness for claim C3 at concrete inputs: the scenario frame followed
by a stray byte parses as class 0x01 id 0x07 with total length 12, and
setting the final checksum byte to 0x3A is rejected. -/
theorem claim_C3_witness :
    uGnssPrivateParseUbx (mkUbxFrame 1 7 [0xDE, 0xAD, 0xBE, 0xEF] ++ [0xD3]) =
      .success 263 12 ∧
    uGnssPrivateParseUbx
      [0xB5, 0x62, 0x01, 0x07, 0x04, 0x00, 0xDE, 0xAD, 0xBE, 0xEF, 0x44, 0x3A] =
      .notFound :=
  ⟨claim_C3.1 1 7 [0xDE, 0xAD, 0xBE, 0xEF] [0xD3] (by decide) (by decide) (by decide),
   claim_C3.2.2.2.2.2 0x3A (by decide)⟩

/-- Claim C6: UBX wildcard matching.  A wanted id of 0xFFFF matches every
16-bit actual id; a wanted id with wildcard class byte 0xFF and concrete
id byte `b` matches exactly the actual ids with low byte `b`; a wanted id
with concrete class byte `c` and wildcard id byte 0xFF matches exactly
the actual ids with class byte `c`; a fully concrete wanted id matches
only the equal actual id.  Actual ids are written `256 * ah + al` with
`ah`/`al` the class/id bytes. -/
theorem claim_C6 :
    (∀ ah al : Nat, ah < 256 → al < 256 →
       ubxIdMatch (256 * ah + al) 0xFFFF = true) ∧
    (∀ b : Nat, b < 256 → b ≠ 0xFF →
       ∀ ah al : Nat, ah < 256 → al < 256 →
         (ubxIdMatch (256 * ah + al) (256 * 0xFF + b) = true ↔ al = b)) ∧
    (∀ c : Nat, c < 256 → c ≠ 0xFF →
       ∀ ah al : Nat, ah < 256 → al < 256 →
         (ubxIdMatch (256 * ah + al) (256 * c + 0xFF) = true ↔ ah = c)) ∧
    (∀ c b : Nat, c < 256 → c ≠ 0xFF → b < 256 → b ≠ 0xFF →
       ∀ ah al : Nat, ah < 256 → al < 256 →
         (ubxIdMatch (256 * ah + al) (256 * c + b) = true ↔
           256 * ah + al = 256 * c + b)) := by
  refine ⟨?_, ?_, ?_, ?_⟩
  · intro ah al hah hal
    have h1 := byte_lor_255 (c := ah) (b := al) hal
    have h2 := byte_lor_65280 (c := ah) (b := 255) hah (by omega)
    simp only [ubxIdMatch, U_GNSS_UBX_MESSAGE_ID_ALL, U_GNSS_UBX_MESSAGE_CLASS_ALL]
    rw [if_pos (by decide), if_pos (by decide), h1]
    norm_num at h2
    rw [show (255 : Nat) <<< 8 = 65280 from by decide, h2]
    norm_num
  · intro b hb hbne ah al hah hal
    have hw1 := byte_land_255 (c := 255) (b := b) hb
    have hw2 := byte_land_65280 (c := 255) (b := b) (by omega) hb
    have h2 := byte_lor_65280 (c := ah) (b := al) hah hal
    simp only [ubxIdMatch, U_GNSS_UBX_MESSAGE_ID_ALL, U_GNSS_UBX_MESSAGE_CLASS_ALL]
    rw [show (255 : Nat) <<< 8 = 65280 from by decide, if_pos (by rw [hw2]),
        if_neg (by rw [hw1]; exact hbne), h2, decide_eq_true_eq]
    omega
  · intro c hc hcne ah al hah hal
    have hw1 := byte_land_255 (c := c) (b := 255) (by omega)
    have hw2 := byte_land_65280 (c := c) (b := 255) hc (by omega)
    have h1 := byte_lor_255 (c := ah) (b := al) hal
    simp only [ubxIdMatch, U_GNSS_UBX_MESSAGE_ID_ALL, U_GNSS_UBX_MESSAGE_CLASS_ALL]
    rw [show (255 : Nat) <<< 8 = 65280 from by decide, if_neg (by rw [hw2]; omega),
        if_pos (by rw [hw1]), h1, decide_eq_true_eq]
    omega
  · intro c b hc hcne hb hbne ah al hah hal
    have hw1 := byte_land_255 (c := c) (b := b) hb
    have hw2 := byte_land_65280 (c := c) (b := b) hc hb
    simp only [ubxIdMatch, U_GNSS_UBX_MESSAGE_ID_ALL, U_GNSS_UBX_MESSAGE_CLASS_ALL]
    rw [show (255 : Nat) <<< 8 = 65280 from by decide, if_neg (by rw [hw2]; omega),
        if_neg (by rw [hw1]; exact hbne), decide_eq_true_eq]

/-- Witness for claim C6 at concrete inputs: 0xFFFF matches 0x0107, the
partial wildcard 0xFF05 matches 0x0305, and the concrete wanted 0x0107
does not gain a wildcard. -/
theorem claim_C6_witness :
    ubxIdMatch (256 * 1 + 7) 0xFFFF = true ∧
    ubxIdMatch (256 * 3 + 5) (256 * 0xFF + 5) = true :=
  ⟨claim_C6.1 1 7 (by decide) (by decide),
   (claim_C6.2.1 5 (by decide) (by decide) 3 5 (by decide) (by decide)).mpr rfl⟩

/-- Claim C10: NMEA id matching is prefix matching with `?` as a
single-character wildcard: a wanted string matches an actual string
exactly when, at every position of the wanted string, the actual string
still has a character and the wanted character is `?` or equal to it; a
wanted string that is a proper prefix of the actual id matches; an actual
string shorter than the wanted string never matches; a NULL wanted
matches anything; a NULL actual matches only a NULL wanted. -/
theorem claim_C10 :
    (∀ ws as : List Char,
       nmeaIdMatch (some as) (some ws) = true ↔
         ∀ k, k < ws.length → k < as.length ∧
           (ws.getD k ' ' = '?' ∨ ws.getD k ' ' = as.getD k ' ')) ∧
    (nmeaIdMatch (some ("GPGGA".toList)) (some ("GPG".toList)) = true) ∧
    (∀ ws as : List Char, as.length < ws.length →
       nmeaIdMatch (some as) (some ws) = false) ∧
    (∀ a : Option (List Char), nmeaIdMatch a none = true) ∧
    (∀ w : List Char, nmeaIdMatch none (some w) = false) := by
  refine ⟨?_, by decide, ?_, ?_, ?_⟩
  · intro ws as
    simpa [nmeaIdMatch] using nmeaIdMatchGo_iff ws as
  · intro ws as hlen
    by_contra h
    have h2 : nmeaIdMatchGo ws as = true := by
      simpa [nmeaIdMatch] using eq_true_of_ne_false (by simpa [nmeaIdMatch] using h)
    have := (nmeaIdMatchGo_iff ws as).mp h2 as.length (by omega)
    omega
  · intro a
    simp [nmeaIdMatch]
  · intro w
    simp [nmeaIdMatch]

/-- Witness for claim C10 at concrete inputs: the wanted string `G?G`
matches the actual `GPGGA` (via the characterization), and the shorter
actual `A` does not match the wanted `AB`. -/
theorem claim_C10_witness :
    nmeaIdMatch (some ("GPGGA".toList)) (some ("G?G".toList)) = true ∧
    nmeaIdMatch (some ("A".toList)) (some ("AB".toList)) = false :=
  ⟨(claim_C10.1 ("G?G".toList) ("GPGGA".toList)).mpr (by decide),
   claim_C10.2.2.1 ("AB".toList) ("A".toList) (by decide)⟩

end UGnss

namespace UGnss

/-- Claim C1 (code bug): evaluation of the RTCM parser at a concrete
frame that is valid per the RTCM standard (sync 0xD3, reserved bits zero,
length 2, payload 3E D0, trailing CRC-24Q A4 E0 00 computed over header
and payload, so that the standard CRC over the whole frame is zero).  The
parser does not accept it: with exactly the frame available it reports
"timeout" (it wants to read one byte past the frame, because its loop
count is the length field plus 2 instead of plus 1), and with a stray
byte following it reads 9 bytes and fails its CRC check (which never
feeds the 3 header bytes) with "not found". -/
theorem claim_C1 :
    stdCrc24 [0xD3, 0x00, 0x02, 0x3E, 0xD0, 0xA4, 0xE0, 0x00] = 0 ∧
    mkRtcmFrame [0x3E, 0xD0] = [0xD3, 0x00, 0x02, 0x3E, 0xD0, 0xA4, 0xE0, 0x00] ∧
    uGnssPrivateParseRtcm (mkRtcmFrame [0x3E, 0xD0]) = .timeout ∧
    uGnssPrivateParseRtcm (mkRtcmFrame [0x3E, 0xD0] ++ [0x00]) = .notFound ∧
    uGnssPrivateParseRtcm (mkRtcmFrame [0x3E, 0xD0] ++ [0x01]) = .notFound := by
  refine ⟨by decide, by decide, by decide, by decide, by decide⟩

/-- Counterexample to claim C7 as stated: the parser accepts the 9-byte
input D3 00 02 3E D0 94 6F B6 00 reporting message type 1005, which is
the first payload byte shifted left four bits plus the HIGH nibble of the
second payload byte; the claimed formula "first payload byte shifted
left, plus the LOW nibble of the next payload byte" gives 992 ≠ 1005. -/
theorem claim_C7_counterexample :
    uGnssPrivateParseRtcm [0xD3, 0x00, 0x02, 0x3E, 0xD0, 0x94, 0x6F, 0xB6, 0x00] =
      .success 1005 9 ∧
    (0x3E <<< 4) + (0xD0 &&& 0xF) = 992 ∧
    (0x3E <<< 4) + (0xD0 >>> 4) = 1005 := by
  refine ⟨by decide, by decide, by decide⟩

/-- Claim C7 (amended): whenever the RTCM parser accepts an input
starting 0xD3, b1, b2, p0, p1, the message type it writes to the
message-id output is the first 12 bits of the body, i.e. the first
payload byte shifted left four bits plus the HIGH nibble of the next
payload byte, and the total consumed length is the 3-byte header plus the
two type bytes plus the 10-bit length field (second byte's low two bits
as high part plus the third byte) plus 2; and a wanted RTCM type is
compared against the decoded type by exact equality. -/
theorem claim_C7 :
    (∀ b1 b2 p0 p1 : Nat, ∀ rest : List Nat, ∀ id n : Nat,
       uGnssPrivateParseRtcm (0xD3 :: b1 :: b2 :: p0 :: p1 :: rest) =
         .success id n →
       id = (p0 <<< 4) + (p1 >>> 4) ∧
       n = 5 + ((b1 &&& 0x3) <<< 8) + b2 + 2) ∧
    (∀ a w : Nat,
       uGnssPrivateMessageIdIsWanted (.rtcm a) (.rtcm w) = true ↔ a = w) := by
  constructor
  · intro b1 b2 p0 p1 rest id n h
    rw [show uGnssPrivateParseRtcm (0xD3 :: b1 :: b2 :: p0 :: p1 :: rest) =
      (if (0xFC &&& b1) ≠ 0 then ParseOutcome.notFound
       else
         let l := ((b1 &&& 0x3) <<< 8) + b2 + 2
         let crc1 := rtcmCrcStep 0 p0
         let crc2 := rtcmCrcStep crc1 p1
         let msgId := (p1 >>> 4) + (p0 <<< 4)
         if l > rest.length then ParseOutcome.timeout
         else
           let crc3 := (rest.take l).foldl rtcmCrcStep crc2
           if (crc3 &&& 0xFFFFFF) ≠ 0 then ParseOutcome.notFound
           else ParseOutcome.success msgId (5 + l)) from rfl] at h
    by_cases hb1 : (0xFC &&& b1) ≠ 0
    · rw [if_pos hb1] at h
      simp at h
    · rw [if_neg hb1] at h
      simp only [] at h
      split at h
      · simp at h
      · split at h
        · simp at h
        · simp only [ParseOutcome.success.injEq] at h
          omega
  · intro a w
    simp [uGnssPrivateMessageIdIsWanted]

/-- Witness for claim C7 at a concrete accepted input: the parser accepts
D3 00 02 3E D0 94 6F B6 00 with type 1005 = (3E <<< 4) + (D0 >>> 4) and
consumed length 9 = 5 + 0 + 2 + 2, and RTCM wanted-matching is equality
at 1005. -/
theorem claim_C7_witness :
    (1005 = (0x3E <<< 4) + (0xD0 >>> 4) ∧
     9 = 5 + ((0 &&& 0x3) <<< 8) + 2 + 2) ∧
    (uGnssPrivateMessageIdIsWanted (.rtcm 1005) (.rtcm 1005) = true) :=
  ⟨claim_C7.1 0 2 0x3E 0xD0 [0x94, 0x6F, 0xB6, 0x00] 1005 9 (by decide),
   (claim_C7.2 1005 1005).mpr rfl⟩

end UGnss

namespace UGnss

theorem byte_shift_lor (c i : Nat) (hi : i < 256) : (c <<< 8) ||| i = 256 * c + i := by
  have h := lor_mul_pow_two_add c 0 (show (0 : Nat) < 2 ^ 8 from by norm_num)
    (show i < 2 ^ 8 from by norm_num; omega)
  simp only [Nat.mul_zero, Nat.zero_add, Nat.add_zero, Nat.or_zero, Nat.zero_or] at h
  rw [show c <<< 8 = 2 ^ 8 * c from by rw [Nat.shiftLeft_eq, Nat.mul_comm]]
  rw [h]
  norm_num

theorem mkUbxFrame_length (cls id : Nat) (body : List Nat) :
    (mkUbxFrame cls id body).length = 8 + body.length := by
  simp [mkUbxFrame, mkUbxFrameCk]
  omega

theorem mkUbxFrame_ack_getD6 (c i : Nat) :
    (mkUbxFrame 5 0 [c, i]).getD 6 0 = c := by
  simp [mkUbxFrame, mkUbxFrameCk]

theorem mkUbxFrame_ack_getD7 (c i : Nat) :
    (mkUbxFrame 5 0 [c, i]).getD 7 0 = i := by
  simp [mkUbxFrame, mkUbxFrameCk]

set_option maxHeartbeats 1000000 in
/-- Claim C4: in the ring-buffer decode loop with a UBX wanted pattern,
a decoded UBX ACK-NACK frame (class 0x05, id 0x00, total length 10) that
does not itself match the wanted pattern but whose embedded class/id
bytes (frame bytes 6 and 7) match it is consumed and reported as the
dedicated NACK error immediately; and this is subordinate to the
wanted-match check: a frame that itself matches the wanted pattern is
reported as a match (length 10, cursor not consumed) even when it is an
ACK-NACK frame. -/
theorem claim_C4 :
    ∀ w c i : Nat, ∀ rest : List Nat, c < 256 → i < 256 →
      (ubxIdMatch 0x0500 w = false →
        ubxIdMatch (256 * c + i) w = true →
        uGnssPrivateStreamDecodeRingBuffer (.ubx w) (mkUbxFrame 5 0 [c, i] ++ rest) =
          some (U_GNSS_ERROR_NACK, .ubx w, rest)) ∧
      (ubxIdMatch 0x0500 w = true →
        uGnssPrivateStreamDecodeRingBuffer (.ubx w) (mkUbxFrame 5 0 [c, i] ++ rest) =
          some (10, .ubx 0x0500, mkUbxFrame 5 0 [c, i] ++ rest)) := by
  intro w c i rest hc hi
  have hlen : (mkUbxFrame 5 0 [c, i]).length = 10 := by
    rw [mkUbxFrame_length]
    simp
  have hdata : (mkUbxFrame 5 0 [c, i] ++ rest).length = 10 + rest.length := by
    simp [hlen]
  have hparse := parseUbx_mkUbxFrame 5 0 [c, i] rest (by simp)
  have hdisp : uRingBufferParseHandle (mkUbxFrame 5 0 [c, i] ++ rest) =
      .ok (.ubx 1280) 10 := by
    unfold uRingBufferParseHandle
    rw [hparse]
    rfl
  have hmin : 10 ⊓ (mkUbxFrame 5 0 [c, i] ++ rest).length = 10 := by
    rw [hdata]
    omega
  have htake : (mkUbxFrame 5 0 [c, i] ++ rest).take 10 = mkUbxFrame 5 0 [c, i] :=
    List.take_left' hlen
  have hdrop : (mkUbxFrame 5 0 [c, i] ++ rest).drop 10 = rest :=
    List.drop_left' hlen
  have hshift := byte_shift_lor c i hi
  constructor
  · intro h1 h2
    unfold uGnssPrivateStreamDecodeRingBuffer
    rw [hdata]
    simp only [streamDecodeGo, hdisp]
    simp only [uGnssPrivateMessageIdIsWanted, h1]
    simp only [hmin, htake, hdrop, mkUbxFrame_ack_getD6, mkUbxFrame_ack_getD7, hshift, h2]
    norm_num
  · intro h1
    unfold uGnssPrivateStreamDecodeRingBuffer
    rw [hdata]
    simp only [streamDecodeGo, hdisp]
    simp only [uGnssPrivateMessageIdIsWanted, h1]
    norm_num

/-- Witness for claim C4 at concrete inputs: with wanted UBX id 0x0601,
an ACK-NACK frame embedding class 0x06 id 0x01 short-circuits to the
NACK error; with the wanted pattern 0x05FF (class 5, wildcard id), the
very same ACK-NACK frame is instead returned as a match of length 10. -/
theorem claim_C4_witness :
    uGnssPrivateStreamDecodeRingBuffer (.ubx 0x0601) (mkUbxFrame 5 0 [6, 1] ++ []) =
      some (U_GNSS_ERROR_NACK, .ubx 0x0601, []) ∧
    uGnssPrivateStreamDecodeRingBuffer (.ubx 0x05FF) (mkUbxFrame 5 0 [6, 1] ++ []) =
      some (10, .ubx 0x0500, mkUbxFrame 5 0 [6, 1] ++ []) :=
  ⟨(claim_C4 0x0601 6 1 [] (by decide) (by decide)).1 (by decide) (by decide),
   (claim_C4 0x05FF 6 1 [] (by decide) (by decide)).2 (by decide)⟩

end UGnss


namespace UGnss

theorem fillGo_step (env : Nat → List Nat) (T M start total fuel : Nat)
    (d : List Nat) (c : Nat) (k : Int) :
    fillGo env T M start (fuel + 1) total ⟨d, c, k⟩ =
      (let want := min (env c).length U_RING_BUFFER_AVAILABLE_SIZE_MAX
       let rcv := min want U_GNSS_MSG_TEMPORARY_BUFFER_LENGTH_BYTES
       if want > 0 then
         if (T > 0) ∧ (U_RING_BUFFER_AVAILABLE_SIZE_MAX > 0) ∧
            ((total + rcv = 0 ∧ c + 1 - start < T) ∨
             (rcv > 0 ∧ (M = 0 ∨ c + 1 - start < M))) then
           fillGo env T M start fuel (total + rcv) ⟨d ++ (env c).take rcv, c + 1, k⟩
         else some ((total + rcv : Int), ⟨d ++ (env c).take rcv, c + 1, k⟩)
       else
         let c2 := if U_RING_BUFFER_AVAILABLE_SIZE_MAX > 0 ∧ T > 0 then c + 1 + 10 else c + 1
         if (T > 0) ∧ (U_RING_BUFFER_AVAILABLE_SIZE_MAX > 0) ∧ (total = 0 ∧ c2 - start < T) then
           fillGo env T M start fuel total ⟨d, c2, k⟩
         else some (if total > 0 then (total : Int) else U_ERROR_COMMON_TIMEOUT,
                    ⟨d, c2, k⟩)) := rfl

end UGnss

namespace UGnss

theorem fillGo_terminates (env : Nat → List Nat) (T M start : Nat) (hM : M > 0) :
    ∀ fuel : Nat, ∀ d : List Nat, ∀ c : Nat, ∀ k : Int, ∀ total : Nat,
      start + T + M ≤ c + fuel + 1 →
      fillGo env T M start (fuel + 1) total ⟨d, c, k⟩ ≠ none := by
  intro fuel
  induction fuel with
  | zero =>
    intro d c k total hc
    rw [fillGo_step]
    simp only [U_RING_BUFFER_AVAILABLE_SIZE_MAX, U_GNSS_MSG_TEMPORARY_BUFFER_LENGTH_BYTES]
    split
    · rw [if_neg (by omega)]
      simp
    · rw [if_neg (by split <;> omega)]
      simp
  | succ fuel ih =>
    intro d c k total hc
    rw [fillGo_step]
    simp only [U_RING_BUFFER_AVAILABLE_SIZE_MAX, U_GNSS_MSG_TEMPORARY_BUFFER_LENGTH_BYTES]
    split
    · split
      · exact ih _ _ _ _ (by omega)
      · simp
    · split
      · split
        · exact ih _ _ _ _ (by omega)
        · simp
      · split
        · exact ih _ _ _ _ (by omega)
        · simp

end UGnss

namespace UGnss

theorem fill_empty_env (d : List Nat) (c : Nat) (k : Int) :
    uGnssPrivateStreamFillRingBuffer (fun _ => []) 20 0 ⟨d, c, k⟩ 52 =
      some (U_ERROR_COMMON_TIMEOUT, ⟨d, c + 22, k⟩) := by
  unfold uGnssPrivateStreamFillRingBuffer
  rw [show (52 : Nat) = 51 + 1 from rfl, fillGo_step]
  norm_num [U_RING_BUFFER_AVAILABLE_SIZE_MAX, U_GNSS_MSG_TEMPORARY_BUFFER_LENGTH_BYTES]
  rw [if_pos (by omega), show (51 : Nat) = 50 + 1 from rfl, fillGo_step]
  norm_num [U_RING_BUFFER_AVAILABLE_SIZE_MAX, U_GNSS_MSG_TEMPORARY_BUFFER_LENGTH_BYTES]
  intro h
  exact absurd h (by omega)

theorem fill_empty_env_zero (d : List Nat) (c : Nat) (k : Int) :
    uGnssPrivateStreamFillRingBuffer (fun _ => []) 0 0 ⟨d, c, k⟩ 32 =
      some (U_ERROR_COMMON_TIMEOUT, ⟨d, c + 1, k⟩) := by
  unfold uGnssPrivateStreamFillRingBuffer
  rw [show (32 : Nat) = 31 + 1 from rfl, fillGo_step]
  norm_num [U_RING_BUFFER_AVAILABLE_SIZE_MAX, U_GNSS_MSG_TEMPORARY_BUFFER_LENGTH_BYTES]

theorem fillGo_empty_terminates (T start : Nat) (d : List Nat) (k : Int) (hT : 0 < T) :
    ∀ fuel c : Nat, start + T ≤ c + 11 * fuel + 11 →
      ∃ c', fillGo (fun _ => []) T 0 start (fuel + 1) 0 ⟨d, c, k⟩ =
        some (U_ERROR_COMMON_TIMEOUT, ⟨d, c', k⟩) := by
  intro fuel
  induction fuel with
  | zero =>
    intro c hc
    rw [fillGo_step]
    norm_num [hT, U_RING_BUFFER_AVAILABLE_SIZE_MAX, U_GNSS_MSG_TEMPORARY_BUFFER_LENGTH_BYTES]
    rw [if_neg (by omega)]
    exact ⟨c + 1 + 10, rfl⟩
  | succ fuel ih =>
    intro c hc
    rw [fillGo_step]
    norm_num [hT, U_RING_BUFFER_AVAILABLE_SIZE_MAX, U_GNSS_MSG_TEMPORARY_BUFFER_LENGTH_BYTES]
    by_cases h : c + 1 + 10 - start < T
    · rw [if_pos h]
      obtain ⟨c', hc'⟩ := ih (c + 1 + 10) (by omega)
      exact ⟨c', hc'⟩
    · rw [if_neg h]
      exact ⟨c + 1 + 10, rfl⟩

theorem fillGo_data_forever :
    ∀ fuel total : Nat, ∀ d : List Nat, ∀ c : Nat, ∀ k : Int,
      fillGo (fun _ => [0]) 20 0 0 fuel total ⟨d, c, k⟩ = none := by
  intro fuel
  induction fuel with
  | zero => intro total d c k; rfl
  | succ fuel ih =>
    intro total d c k
    rw [fillGo_step]
    norm_num [U_RING_BUFFER_AVAILABLE_SIZE_MAX, U_GNSS_MSG_TEMPORARY_BUFFER_LENGTH_BYTES]
    exact ih (total + 1) (d ++ [0]) (c + 1) k

end UGnss

namespace UGnss


/-- Claim C9 (amended): the fill loop's termination depends on the budgets.
(A) With no incoming data and a positive timeout, it terminates with the
timeout error within a cursor budget of the timeout. (B) For ANY data
source, a positive overall cap maxTimeMs bounds the number of loop
iterations by timeoutMs + maxTimeMs. (C) But with maxTimeMs = 0 ("no
overall cap") and a source that always has a byte ready, the loop never
exits: no fuel suffices, refuting the claim's assertion that the loop
always terminates within a bound determined by its time budgets. -/
theorem claim_C9 :
    (∀ T : Nat, ∀ d : List Nat, ∀ c : Nat, ∀ k : Int, 0 < T →
       ∃ c', uGnssPrivateStreamFillRingBuffer (fun _ => []) T 0 ⟨d, c, k⟩ (T + 1) =
         some (U_ERROR_COMMON_TIMEOUT, ⟨d, c', k⟩)) ∧
    (∀ env : Nat → List Nat, ∀ T M : Nat, ∀ d : List Nat, ∀ c : Nat, ∀ k : Int,
       0 < M →
       uGnssPrivateStreamFillRingBuffer env T M ⟨d, c, k⟩ (T + M + 1) ≠ none) ∧
    (∀ fuel : Nat,
       uGnssPrivateStreamFillRingBuffer (fun _ => [0]) 20 0 ⟨[], 0, 0⟩ fuel = none) := by
  refine ⟨?_, ?_, ?_⟩
  · intro T d c k hT
    exact fillGo_empty_terminates T c d k hT T c (by omega)
  · intro env T M d c k hM
    exact fillGo_terminates env T M c hM (T + M) d c k 0 (by omega)
  · intro fuel
    exact fillGo_data_forever fuel 0 [] 0 0

/-- Counterexample for claim C9 as stated: with maxTimeMs = 0 and a
source with a byte always pending, the fill loop is still running after
1000 iterations (and, by claim_C9 part C, after any number at all), even
though both time budgets of the claim are long exceeded. -/
theorem claim_C9_counterexample :
    uGnssPrivateStreamFillRingBuffer (fun _ => [0]) 20 0 ⟨[], 0, 0⟩ 1000 = none :=
  fillGo_data_forever 1000 0 [] 0 0

/-- Witness for claim C9 at concrete inputs: with timeoutMs = 20 and no
data the loop exits with the timeout error within 21 iterations, and
with maxTimeMs = 30 and a constant data source it has exited within
20 + 30 + 1 iterations. -/
theorem claim_C9_witness :
    (∃ c', uGnssPrivateStreamFillRingBuffer (fun _ => []) 20 0 ⟨[], 0, 0⟩ 21 =
        some (U_ERROR_COMMON_TIMEOUT, ⟨[], c', 0⟩)) ∧
    uGnssPrivateStreamFillRingBuffer (fun _ => [7]) 20 30 ⟨[], 0, 0⟩ 51 ≠ none :=
  ⟨claim_C9.1 20 [] 0 0 (by decide),
   claim_C9.2.1 (fun _ => [7]) 20 30 [] 0 0 (by decide)⟩

end UGnss

namespace UGnss

theorem receiveGo_step (env : Nat → List Nat) (p : UGnssPrivateMessageId)
    (size : Nat) (alloc : Bool) (T : Nat) (kg : Nat → Bool) (start fuel : Nat)
    (acc : RecvAcc) :
    receiveGo env p size alloc T kg start (fuel + 1) acc =
      (match uGnssPrivateStreamFillRingBuffer env
          (if T > 0 then U_GNSS_RING_BUFFER_MIN_FILL_TIME_MS else 0) 0 acc.st
          ((if T > 0 then U_GNSS_RING_BUFFER_MIN_FILL_TIME_MS else 0) + 32) with
       | none => none
       | some (receiveSize, st1) =>
         match receiveIter p size alloc st1 acc with
         | none => none
         | some acc2 =>
           let acc3 : RecvAcc :=
             if receiveSize ≤ 0 ∧ T > 0 then
               { acc2 with st := { acc2.st with now := acc2.st.now + 10 } }
             else acc2
           if ((acc3.err < 0 ∧ acc3.err ≠ U_GNSS_ERROR_NACK ∧
                acc3.err ≠ U_ERROR_COMMON_NO_MEMORY) ∨ acc3.discard > 0) ∧
              (T > 0) ∧ (acc3.st.now - start < T) ∧ (kg acc3.st.now = true) then
             receiveGo env p size alloc T kg start fuel acc3
           else
             some (acc3.err, acc3)) := rfl

theorem receiveIter_empty (p : UGnssPrivateMessageId) (size : Nat)
    (alloc : Bool) (c : Nat) (k : Int) (acc : RecvAcc) :
    receiveIter p size alloc ⟨[], c, k⟩ acc =
      some { acc with st := ⟨[], c, k⟩ } := rfl

theorem streamDecode_match (w cls id : Nat) (body rest : List Nat)
    (hlen : body.length < 65536)
    (hm : ubxIdMatch (cls * 256 + id) w = true) :
    uGnssPrivateStreamDecodeRingBuffer (.ubx w) (mkUbxFrame cls id body ++ rest) =
      some (((8 + body.length : Nat) : Int), .ubx (cls * 256 + id),
            mkUbxFrame cls id body ++ rest) := by
  have hparse := parseUbx_mkUbxFrame cls id body rest hlen
  have hdisp : uRingBufferParseHandle (mkUbxFrame cls id body ++ rest) =
      .ok (.ubx (cls * 256 + id)) (8 + body.length) := by
    unfold uRingBufferParseHandle
    rw [hparse]
  unfold uGnssPrivateStreamDecodeRingBuffer
  rw [show (mkUbxFrame cls id body ++ rest).length = 8 + (body.length + rest.length)
        from by rw [List.length_append, mkUbxFrame_length]; omega]
  simp only [streamDecodeGo, hdisp]
  simp only [uGnssPrivateMessageIdIsWanted, hm]
  norm_num

theorem streamDecode_skip (w cls id : Nat) (body : List Nat)
    (hlen : body.length < 65536)
    (hm : ubxIdMatch (cls * 256 + id) w = false)
    (hne : cls * 256 + id ≠ 1280) :
    uGnssPrivateStreamDecodeRingBuffer (.ubx w) (mkUbxFrame cls id body) =
      some (U_ERROR_COMMON_TIMEOUT, .ubx w, []) := by
  have hp : uGnssPrivateParseUbx (mkUbxFrame cls id body) =
      .success (cls * 256 + id) (8 + body.length) := by
    have h := parseUbx_mkUbxFrame cls id body [] hlen
    simpa using h
  have hdisp : uRingBufferParseHandle (mkUbxFrame cls id body) =
      .ok (.ubx (cls * 256 + id)) (8 + body.length) := by
    unfold uRingBufferParseHandle
    rw [hp]
  have hdatalen : (mkUbxFrame cls id body).length = 8 + body.length :=
    mkUbxFrame_length cls id body
  have hdropall : (mkUbxFrame cls id body).drop
      (min (8 + body.length) (mkUbxFrame cls id body).length) = [] := by
    rw [hdatalen, min_self, ← hdatalen, List.drop_length]
  unfold uGnssPrivateStreamDecodeRingBuffer
  rw [show (mkUbxFrame cls id body).length = 8 + body.length from mkUbxFrame_length cls id body]
  simp only [streamDecodeGo, hdisp]
  simp only [uGnssPrivateMessageIdIsWanted, hm]
  rw [if_neg (show ¬(false = true) from by simp)]
  rw [if_neg (show ¬(cls * 256 + id = 1280 ∧ 8 + body.length = 10) from
        fun h => hne h.1)]
  rw [hdropall]
  rw [show (8 : Nat) + body.length = (7 + body.length) + 1 from by omega]
  simp only [streamDecodeGo,
    show uRingBufferParseHandle ([] : List Nat) = DispatchRes.needMore from rfl]

end UGnss

namespace UGnss

theorem receiveIter_match (w cls id : Nat) (body : List Nat) (sz : Nat)
    (alloc : Bool) (c : Nat) (k : Int) (st0 : StreamState) (out0 : List Nat)
    (bs : Nat) (e0 : Int) (m0 : UGnssPrivateMessageId)
    (hlen : body.length < 65536)
    (hm : ubxIdMatch (cls * 256 + id) w = true) :
    receiveIter (.ubx w) sz alloc ⟨mkUbxFrame cls id body, c, k⟩
        ⟨st0, out0, true, bs, 0, e0, m0⟩ =
      some ⟨⟨(mkUbxFrame cls id body).drop (min (8 + body.length) sz), c, k⟩,
            (mkUbxFrame cls id body).take (min (8 + body.length) sz), true, bs,
            8 + body.length - min (8 + body.length) sz,
            (if 0 < min (8 + body.length) sz
             then ((min (8 + body.length) sz : Nat) : Int)
             else U_ERROR_COMMON_TIMEOUT),
            .ubx (cls * 256 + id)⟩ := by
  have hdec := streamDecode_match w cls id body [] hlen hm
  rw [List.append_nil] at hdec
  unfold receiveIter
  simp only [Nat.zero_min, List.drop_zero, Nat.sub_zero, hdec]
  rw [if_pos (show (mkUbxFrame cls id body).length > 0 from by
        rw [mkUbxFrame_length]; omega)]
  rw [if_pos trivial]
  rw [if_pos (show ((8 + body.length : Nat) : Int) > 0 from by positivity)]
  rw [if_pos trivial]
  simp only [Int.toNat_natCast, Nat.zero_add]

end UGnss

namespace UGnss

theorem receiveIter_alloc (w cls id : Nat) (body : List Nat) (sz : Nat)
    (c : Nat) (k : Int) (st0 : StreamState) (out0 : List Nat)
    (bs : Nat) (e0 : Int) (m0 : UGnssPrivateMessageId)
    (hlen : body.length < 65536)
    (hm : ubxIdMatch (cls * 256 + id) w = true) :
    receiveIter (.ubx w) sz true ⟨mkUbxFrame cls id body, c, k⟩
        ⟨st0, out0, false, bs, 0, e0, m0⟩ =
      some ⟨⟨[], c, k⟩, mkUbxFrame cls id body, true, 8 + body.length, 0,
            ((8 + body.length : Nat) : Int), .ubx (cls * 256 + id)⟩ := by
  have hdec := streamDecode_match w cls id body [] hlen hm
  rw [List.append_nil] at hdec
  unfold receiveIter
  simp only [Nat.zero_min, List.drop_zero, Nat.sub_zero, hdec]
  rw [if_pos (show (mkUbxFrame cls id body).length > 0 from by
        rw [mkUbxFrame_length]; omega)]
  rw [if_pos trivial]
  rw [if_pos (show ((8 + body.length : Nat) : Int) > 0 from by positivity)]
  simp only [Int.toNat_natCast]
  rw [show List.take (8 + body.length) (mkUbxFrame cls id body) =
        mkUbxFrame cls id body from by
          rw [← mkUbxFrame_length cls id body]; exact List.take_length _]
  rw [show List.drop (8 + body.length) (mkUbxFrame cls id body) =
        ([] : List Nat) from by
          rw [← mkUbxFrame_length cls id body]; exact List.drop_length _]
  simp

theorem receiveIter_nomatch (w cls id : Nat) (body : List Nat) (sz : Nat)
    (alloc : Bool) (c : Nat) (k : Int) (st0 : StreamState) (out0 : List Nat)
    (hb : Bool) (bs : Nat) (e0 : Int) (m0 : UGnssPrivateMessageId)
    (hlen : body.length < 65536)
    (hm : ubxIdMatch (cls * 256 + id) w = false)
    (hne : cls * 256 + id ≠ 1280) :
    receiveIter (.ubx w) sz alloc ⟨mkUbxFrame cls id body, c, k⟩
        ⟨st0, out0, hb, bs, 0, e0, m0⟩ =
      some ⟨⟨[], c, k⟩, out0, hb, bs, 0, U_ERROR_COMMON_TIMEOUT, .ubx w⟩ := by
  have hdec := streamDecode_skip w cls id body hlen hm hne
  unfold receiveIter
  simp only [Nat.zero_min, List.drop_zero, Nat.sub_zero, hdec]
  rw [if_pos (show (mkUbxFrame cls id body).length > 0 from by
        rw [mkUbxFrame_length]; omega)]
  rw [if_pos trivial]
  rw [if_neg (show ¬((U_ERROR_COMMON_TIMEOUT : Int) > 0) from by decide)]

end UGnss

namespace UGnss

theorem receiveGo_drain (p : UGnssPrivateMessageId) (size : Nat) (alloc : Bool)
    (T start : Nat) (hT : 0 < T) :
    ∀ fuel c : Nat, ∀ k : Int, ∀ out : List Nat, ∀ hb : Bool, ∀ bs : Nat,
      ∀ e : Int, ∀ m : UGnssPrivateMessageId,
      e < 0 → e ≠ U_GNSS_ERROR_NACK → e ≠ U_ERROR_COMMON_NO_MEMORY →
      start + T ≤ c + 32 * fuel + 32 →
      ∃ c', receiveGo (fun _ => []) p size alloc T (fun _ => true) start (fuel + 1)
          ⟨⟨[], c, k⟩, out, hb, bs, 0, e, m⟩ =
        some (e, ⟨⟨[], c', k⟩, out, hb, bs, 0, e, m⟩) := by
  intro fuel
  induction fuel with
  | zero =>
    intro c k out hb bs e m he hn hm hle
    rw [receiveGo_step, if_pos hT]
    rw [show U_GNSS_RING_BUFFER_MIN_FILL_TIME_MS = 20 from rfl,
        show (20 : Nat) + 32 = 52 from rfl]
    rw [show ((⟨⟨[], c, k⟩, out, hb, bs, 0, e, m⟩ : RecvAcc).st) = ⟨[], c, k⟩ from rfl]
    rw [fill_empty_env [] c k]
    simp only [receiveIter_empty]
    rw [if_pos (show (U_ERROR_COMMON_TIMEOUT : Int) ≤ 0 ∧ T > 0 from ⟨by decide, hT⟩)]
    simp only []
    split
    · next h => exact absurd h.2.2.1 (by omega)
    · exact ⟨c + 22 + 10, rfl⟩
  | succ fuel ih =>
    intro c k out hb bs e m he hn hm hle
    rw [receiveGo_step, if_pos hT]
    rw [show U_GNSS_RING_BUFFER_MIN_FILL_TIME_MS = 20 from rfl,
        show (20 : Nat) + 32 = 52 from rfl]
    rw [show ((⟨⟨[], c, k⟩, out, hb, bs, 0, e, m⟩ : RecvAcc).st) = ⟨[], c, k⟩ from rfl]
    rw [fill_empty_env [] c k]
    simp only [receiveIter_empty]
    rw [if_pos (show (U_ERROR_COMMON_TIMEOUT : Int) ≤ 0 ∧ T > 0 from ⟨by decide, hT⟩)]
    by_cases hlt : c + 22 + 10 - start < T
    · split
      · obtain ⟨c', hc'⟩ := ih (c + 22 + 10) k out hb bs e m he hn hm (by omega)
        exact ⟨c', hc'⟩
      · next h => exact absurd ⟨Or.inl ⟨he, hn, hm⟩, hT, hlt, trivial⟩ h
    · split
      · next h => exact absurd h.2.2.1 hlt
      · exact ⟨c + 22 + 10, rfl⟩

end UGnss

namespace UGnss

theorem fillGo_locks (env : Nat → List Nat) (T M start : Nat) :
    ∀ fuel total : Nat, ∀ d : List Nat, ∀ c : Nat, ∀ k : Int, ∀ r : Int,
      ∀ st' : StreamState,
      fillGo env T M start fuel total ⟨d, c, k⟩ = some (r, st') →
      st'.locks = k := by
  intro fuel
  induction fuel with
  | zero =>
    intro total d c k r st' h
    exact absurd h (by simp [fillGo])
  | succ fuel ih =>
    intro total d c k r st' h
    rw [fillGo_step] at h
    simp only [] at h
    repeat' split at h
    all_goals first
      | exact ih _ _ _ _ _ _ h
      | (simp only [Option.some.injEq, Prod.mk.injEq] at h
         rw [← h.2])

theorem fill_locks (env : Nat → List Nat) (T M : Nat) (st : StreamState)
    (fuel : Nat) (r : Int) (st' : StreamState)
    (h : uGnssPrivateStreamFillRingBuffer env T M st fuel = some (r, st')) :
    st'.locks = st.locks := by
  obtain ⟨d, c, k⟩ := st
  exact fillGo_locks env T M c fuel 0 d c k r st' h

theorem receiveIter_locks (p : UGnssPrivateMessageId) (size : Nat) (alloc : Bool)
    (st1 : StreamState) (acc acc2 : RecvAcc)
    (h : receiveIter p size alloc st1 acc = some acc2) :
    acc2.st.locks = st1.locks := by
  simp only [receiveIter] at h
  split at h
  · split at h
    · split at h
      · exact absurd h (by simp)
      · split at h
        · split at h
          · simp only [Option.some.injEq] at h
            subst h
            rfl
          · split at h
            · simp only [Option.some.injEq] at h
              subst h
              rfl
            · simp only [Option.some.injEq] at h
              subst h
              rfl
        · simp only [Option.some.injEq] at h
          subst h
          rfl
    · simp only [Option.some.injEq] at h
      subst h
      rfl
  · simp only [Option.some.injEq] at h
    subst h
    rfl

theorem receiveGo_locks (env : Nat → List Nat) (p : UGnssPrivateMessageId)
    (size : Nat) (alloc : Bool) (T : Nat) (kg : Nat → Bool) (start : Nat) :
    ∀ fuel : Nat, ∀ acc : RecvAcc, ∀ r : Int, ∀ acc' : RecvAcc,
      receiveGo env p size alloc T kg start fuel acc = some (r, acc') →
      acc'.st.locks = acc.st.locks := by
  intro fuel
  induction fuel with
  | zero =>
    intro acc r acc' h
    exact absurd h (by simp [receiveGo])
  | succ fuel ih =>
    intro acc r acc' h
    rw [receiveGo_step] at h
    cases hfill : uGnssPrivateStreamFillRingBuffer env
        (if T > 0 then U_GNSS_RING_BUFFER_MIN_FILL_TIME_MS else 0) 0 acc.st
        ((if T > 0 then U_GNSS_RING_BUFFER_MIN_FILL_TIME_MS else 0) + 32) with
    | none =>
      rw [hfill] at h
      exact absurd h (by simp)
    | some res =>
      obtain ⟨rs, st1⟩ := res
      rw [hfill] at h
      simp only [] at h
      have hst1 : st1.locks = acc.st.locks := fill_locks _ _ _ _ _ _ _ hfill
      cases hiter : receiveIter p size alloc st1 acc with
      | none =>
        rw [hiter] at h
        exact absurd h (by simp)
      | some acc2 =>
        rw [hiter] at h
        have h2 : acc2.st.locks = st1.locks := receiveIter_locks _ _ _ _ _ _ hiter
        simp only [] at h
        by_cases hc1 : (rs ≤ 0 ∧ T > 0)
        · rw [if_pos hc1] at h
          split at h
          · have h3 := ih _ _ _ h
            rw [h3]
            simpa [hst1] using h2
          · simp only [Option.some.injEq, Prod.mk.injEq] at h
            rw [← h.2]
            simpa [hst1] using h2
        · rw [if_neg hc1] at h
          split at h
          · have h3 := ih _ _ _ h
            rw [h3, h2, hst1]
          · simp only [Option.some.injEq, Prod.mk.injEq] at h
            rw [← h.2, h2, hst1]

end UGnss

namespace UGnss

/-- Claim C8: the stream receive function balances its ring-buffer read
handle lock: whenever the simulation returns (on any exit path - matched
frame, NACK, no-memory, deadline expiry or keep-going cancellation), the
lock counter of the returned state equals the one of the entry state. -/
theorem claim_C8 (env : Nat → List Nat) (p : UGnssPrivateMessageId)
    (callerBuf : Bool) (size : Nat) (allocOk : Bool) (timeoutMs : Nat)
    (keepGoing : Nat → Bool) (st : StreamState) (fuel : Nat) (r : Int)
    (acc : RecvAcc)
    (h : uGnssPrivateReceiveStreamMessage env p callerBuf size allocOk timeoutMs
        keepGoing st fuel = some (r, acc)) :
    acc.st.locks = st.locks := by
  unfold uGnssPrivateReceiveStreamMessage at h
  simp only [] at h
  split at h
  · simp only [Option.some.injEq, Prod.mk.injEq] at h
    rw [← h.2]
  · cases hgo : receiveGo env p size allocOk timeoutMs keepGoing st.now fuel
        ⟨{ st with locks := st.locks + 1 }, [], callerBuf, size, 0,
         U_ERROR_COMMON_TIMEOUT, p⟩ with
    | none =>
      rw [hgo] at h
      exact absurd h (by simp)
    | some res =>
      obtain ⟨r0, acc0⟩ := res
      rw [hgo] at h
      simp only [Option.some.injEq, Prod.mk.injEq] at h
      have hbal := receiveGo_locks env p size allocOk timeoutMs keepGoing st.now
        fuel _ _ _ hgo
      rw [← h.2]
      simp only [] at hbal ⊢
      omega

/-- Witness for claim C8 at concrete inputs: a run with timeout zero and
an empty transport returns the timeout error, and the lock counter of the
returned state equals the entry state's counter (here 5). -/
theorem claim_C8_witness :
    ((⟨⟨[], 1, 5⟩, [], true, 2, 0, U_ERROR_COMMON_TIMEOUT,
      .ubx 0x0107⟩ : RecvAcc) : RecvAcc).st.locks =
      (⟨[], 0, 5⟩ : StreamState).locks :=
  claim_C8 (fun _ => []) (.ubx 0x0107) true 2 true 0 (fun _ => true)
    ⟨[], 0, 5⟩ 1 U_ERROR_COMMON_TIMEOUT
    ⟨⟨[], 1, 5⟩, [], true, 2, 0, U_ERROR_COMMON_TIMEOUT, .ubx 0x0107⟩
    (by decide)

end UGnss

namespace UGnss

set_option maxHeartbeats 1000000 in
theorem recvTruncNoTimeout (w cls id s : Nat) (body : List Nat)
    (hlen : body.length < 65536)
    (hm : ubxIdMatch (cls * 256 + id) w = true)
    (hs : 0 < s) (hsL : s < 8 + body.length) :
    uGnssPrivateReceiveStreamMessage (fun _ => []) (.ubx w) true s true 0
        (fun _ => true) ⟨mkUbxFrame cls id body, 0, 0⟩ 1 =
      some ((s : Int),
        ⟨⟨(mkUbxFrame cls id body).drop s, 1, 0⟩,
         (mkUbxFrame cls id body).take s, true, s, 8 + body.length - s,
         (s : Int), .ubx (cls * 256 + id)⟩) := by
  have hmin : min (8 + body.length) s = s := min_eq_right (le_of_lt hsL)
  unfold uGnssPrivateReceiveStreamMessage
  simp only []
  rw [if_neg (show ¬(True ∧ s = 0) from by
        rintro ⟨-, h⟩
        omega)]
  rw [show (1 : Nat) = 0 + 1 from rfl, receiveGo_step]
  rw [if_neg (show ¬((0 : Nat) > 0) from by omega)]
  norm_num
  rw [fill_empty_env_zero (mkUbxFrame cls id body) 0 1]
  simp only []
  rw [receiveIter_match w cls id body s true (0 + 1) 1 ⟨mkUbxFrame cls id body, 0, 1⟩
        [] s U_ERROR_COMMON_TIMEOUT (.ubx w) hlen hm]
  simp only [hmin]
  rw [if_pos hs]
  norm_num

end UGnss

namespace UGnss

theorem receiveIter_discard_all (p : UGnssPrivateMessageId) (sz : Nat)
    (alloc : Bool) (data : List Nat) (c : Nat) (k : Int) (st0 : StreamState)
    (out0 : List Nat) (hb : Bool) (bs : Nat) (e0 : Int)
    (m0 : UGnssPrivateMessageId) (hlen : 0 < data.length) :
    receiveIter p sz alloc ⟨data, c, k⟩
        ⟨st0, out0, hb, bs, data.length, e0, m0⟩ =
      some ⟨⟨[], c, k⟩, out0, hb, bs, 0, U_ERROR_COMMON_TIMEOUT, p⟩ := by
  unfold receiveIter
  simp only []
  rw [if_pos hlen]
  rw [min_self, List.drop_length, Nat.sub_self]
  rw [if_pos rfl]
  rw [show uGnssPrivateStreamDecodeRingBuffer p [] =
        some (U_ERROR_COMMON_TIMEOUT, p, []) from rfl]
  simp only []
  rw [if_neg (show ¬((U_ERROR_COMMON_TIMEOUT : Int) > 0) from by decide)]

end UGnss

namespace UGnss

set_option maxHeartbeats 1000000 in
theorem recvTruncTimeout (w cls id s : Nat) (body : List Nat)
    (hlen : body.length < 65536)
    (hm : ubxIdMatch (cls * 256 + id) w = true)
    (hs : 0 < s) (hsL : s < 8 + body.length) :
    ∃ c', uGnssPrivateReceiveStreamMessage (fun _ => []) (.ubx w) true s true 200
        (fun _ => true) ⟨mkUbxFrame cls id body, 0, 0⟩ 7 =
      some (U_ERROR_COMMON_TIMEOUT,
        ⟨⟨[], c', 0⟩, (mkUbxFrame cls id body).take s, true, s, 0,
         U_ERROR_COMMON_TIMEOUT, .ubx w⟩) := by
  have hmin : min (8 + body.length) s = s := min_eq_right (le_of_lt hsL)
  obtain ⟨c', hdr⟩ := receiveGo_drain (.ubx w) s true 200 0 (by omega) 4 64 1
    ((mkUbxFrame cls id body).take s) true s U_ERROR_COMMON_TIMEOUT (.ubx w)
    (by decide) (by decide) (by decide) (by omega)
  refine ⟨c', ?_⟩
  unfold uGnssPrivateReceiveStreamMessage
  simp only []
  rw [if_neg (show ¬(True ∧ s = 0) from by
        rintro ⟨-, h⟩
        omega)]
  rw [show (7 : Nat) = 6 + 1 from rfl, receiveGo_step]
  rw [if_pos (show (200 : Nat) > 0 from by omega)]
  rw [show U_GNSS_RING_BUFFER_MIN_FILL_TIME_MS = 20 from rfl,
      show (20 : Nat) + 32 = 52 from rfl]
  norm_num
  rw [fill_empty_env (mkUbxFrame cls id body) 0 1]
  simp only []
  rw [receiveIter_match w cls id body s true (0 + 22) 1 ⟨mkUbxFrame cls id body, 0, 1⟩
        [] s U_ERROR_COMMON_TIMEOUT (.ubx w) hlen hm]
  simp only [hmin]
  rw [if_pos hs]
  rw [if_pos (show (U_ERROR_COMMON_TIMEOUT : Int) ≤ 0 from by decide)]
  simp only []
  rw [if_pos (show ((s : Int) < 0 ∧ ¬(s : Int) = U_GNSS_ERROR_NACK ∧
        ¬(s : Int) = U_ERROR_COMMON_NO_MEMORY ∨ 0 < 8 + body.length - s) ∧
        0 + 22 + 10 < 200 from ⟨Or.inr (by omega), by norm_num⟩)]
  rw [show (6 : Nat) = 5 + 1 from rfl, receiveGo_step]
  rw [if_pos (show (200 : Nat) > 0 from by omega)]
  rw [show U_GNSS_RING_BUFFER_MIN_FILL_TIME_MS = 20 from rfl,
      show (20 : Nat) + 32 = 52 from rfl]
  simp only []
  norm_num
  rw [fill_empty_env ((mkUbxFrame cls id body).drop s) 32 1]
  simp only []
  have hdl : ((mkUbxFrame cls id body).drop s).length = 8 + body.length - s := by
    rw [List.length_drop, mkUbxFrame_length]
  rw [show (8 + body.length - s) = ((mkUbxFrame cls id body).drop s).length from
        hdl.symm]
  rw [receiveIter_discard_all (.ubx w) s true ((mkUbxFrame cls id body).drop s)
        (32 + 22) 1 ⟨(mkUbxFrame cls id body).drop s, 32, 1⟩
        ((mkUbxFrame cls id body).take s) true s ((s : Nat) : Int)
        (.ubx (cls * 256 + id)) (by rw [hdl]; omega)]
  simp only []
  rw [if_pos (show (U_ERROR_COMMON_TIMEOUT : Int) ≤ 0 from by decide)]
  simp only []
  rw [if_pos (show ((U_ERROR_COMMON_TIMEOUT : Int) < 0 ∧
        ¬U_ERROR_COMMON_TIMEOUT = U_GNSS_ERROR_NACK ∧
        ¬U_ERROR_COMMON_TIMEOUT = U_ERROR_COMMON_NO_MEMORY ∨ (0 : Nat) < 0) ∧
        32 + 22 + 10 < 200 from
        ⟨Or.inl ⟨by decide, by decide, by decide⟩, by norm_num⟩)]
  rw [show (32 : Nat) + 22 + 10 = 64 from rfl]
  rw [show (5 : Nat) = 4 + 1 from rfl]
  rw [hdr]
  simp only []
  norm_num

end UGnss

namespace UGnss

theorem ubxIdMatch_ackWanted (rc ri : Nat) (hri : ri < 256) :
    ubxIdMatch (rc * 256 + ri) 1535 = decide (rc = 5) := by
  unfold ubxIdMatch U_GNSS_UBX_MESSAGE_ID_ALL U_GNSS_UBX_MESSAGE_CLASS_ALL
  simp only []
  rw [show rc * 256 + ri = 256 * rc + ri from by ring]
  rw [if_pos (show (1535 : Nat) &&& 255 = 255 from by decide)]
  rw [if_neg (show ¬((1535 : Nat) &&& 255 <<< 8 = 255 <<< 8) from by decide)]
  rw [byte_lor_255 hri]
  simp only [decide_eq_decide]
  constructor
  · intro h; omega
  · intro h; omega

theorem receive_alloc_match (w cls id : Nat) (body : List Nat)
    (hlen : body.length < 65536)
    (hm : ubxIdMatch (cls * 256 + id) w = true) :
    uGnssPrivateReceiveStreamMessage (fun _ => []) (.ubx w) false 0 true 0
        (fun _ => true) ⟨mkUbxFrame cls id body, 0, 0⟩ 1 =
      some (((8 + body.length : Nat) : Int),
        ⟨⟨[], 1, 0⟩, mkUbxFrame cls id body, true, 8 + body.length, 0,
         ((8 + body.length : Nat) : Int), .ubx (cls * 256 + id)⟩) := by
  unfold uGnssPrivateReceiveStreamMessage
  simp only []
  rw [if_neg (show ¬(false = true ∧ True) from by simp)]
  rw [show (1 : Nat) = 0 + 1 from rfl, receiveGo_step]
  rw [if_neg (show ¬((0 : Nat) > 0) from by omega)]
  norm_num
  rw [fill_empty_env_zero (mkUbxFrame cls id body) 0 1]
  simp only []
  rw [receiveIter_alloc w cls id body 0 (0 + 1) 1 ⟨mkUbxFrame cls id body, 0, 1⟩
        [] 0 U_ERROR_COMMON_TIMEOUT (.ubx w) hlen hm]
  norm_num

theorem receive_alloc_nomatch (w cls id : Nat) (body : List Nat)
    (hlen : body.length < 65536)
    (hmf : ubxIdMatch (cls * 256 + id) w = false)
    (hne : cls * 256 + id ≠ 1280) :
    uGnssPrivateReceiveStreamMessage (fun _ => []) (.ubx w) false 0 true 0
        (fun _ => true) ⟨mkUbxFrame cls id body, 0, 0⟩ 1 =
      some (U_ERROR_COMMON_TIMEOUT,
        ⟨⟨[], 1, 0⟩, [], false, 0, 0, U_ERROR_COMMON_TIMEOUT, .ubx w⟩) := by
  unfold uGnssPrivateReceiveStreamMessage
  simp only []
  rw [if_neg (show ¬(false = true ∧ True) from by simp)]
  rw [show (1 : Nat) = 0 + 1 from rfl, receiveGo_step]
  rw [if_neg (show ¬((0 : Nat) > 0) from by omega)]
  norm_num
  rw [fill_empty_env_zero (mkUbxFrame cls id body) 0 1]
  simp only []
  rw [receiveIter_nomatch w cls id body 0 true (0 + 1) 1
        ⟨mkUbxFrame cls id body, 0, 1⟩ [] false 0 U_ERROR_COMMON_TIMEOUT (.ubx w)
        hlen hmf hne]
  norm_num

theorem receiveUbxMessageStream_ack (env : Nat → List Nat) (bodyCap T : Nat)
    (st : StreamState) (fuel : Nat) :
    receiveUbxMessageStream env 5 (-1) bodyCap T st fuel =
      (match uGnssPrivateReceiveStreamMessage env (.ubx 1535) false 0 true T
          (fun _ => true) st fuel with
       | none => none
       | some (e, acc) =>
         if e ≥ (8 : Int) then
           some (((if e.toNat - 8 > bodyCap then bodyCap
                   else e.toNat - 8 : Nat) : Int),
                 (((match acc.msgOut with | .ubx u => u | _ => 0) >>> 8 : Nat) : Int),
                 (((match acc.msgOut with | .ubx u => u | _ => 0) &&& 0xFF : Nat) : Int),
                 (acc.out.drop 6).take
                   (if e.toNat - 8 > bodyCap then bodyCap else e.toNat - 8))
         else some (e, 5, -1, [])) := rfl

end UGnss

namespace UGnss

set_option maxHeartbeats 1000000 in
theorem claim_C5 (mc mi rc ri b0 b1 : Nat) (tail : List Nat)
    (hrc : rc < 256) (hri : ri < 256) (hlen : tail.length + 2 < 65536) :
    uGnssPrivateSendUbxMessage (fun _ => []) mc mi 0
        ⟨mkUbxFrame rc ri (b0 :: b1 :: tail), 0, 0⟩ 1 =
      some (if rc = 5 then
              (if b0 = mc ∧ b1 = mi then
                 (if ri = 1 then U_ERROR_COMMON_SUCCESS else U_GNSS_ERROR_NACK)
               else U_ERROR_COMMON_UNKNOWN)
            else U_ERROR_COMMON_UNKNOWN) := by
  have hblen : (b0 :: b1 :: tail).length < 65536 := by simp; omega
  unfold uGnssPrivateSendUbxMessage
  rw [receiveUbxMessageStream_ack]
  by_cases hrc5 : rc = 5
  · subst hrc5
    have hm : ubxIdMatch (5 * 256 + ri) 1535 = true := by
      rw [ubxIdMatch_ackWanted 5 ri hri]
      decide
    rw [receive_alloc_match 1535 5 ri (b0 :: b1 :: tail) hblen hm]
    simp only []
    rw [if_pos (show ((8 + (b0 :: b1 :: tail).length : Nat) : Int) ≥ 8 from by
          push_cast
          omega)]
    simp only [Int.toNat_natCast]
    rw [show 8 + (b0 :: b1 :: tail).length - 8 = (b0 :: b1 :: tail).length from by
          omega]
    rw [show (if (b0 :: b1 :: tail).length > 2 then 2
              else (b0 :: b1 :: tail).length) = 2 from by
          simp only [List.length_cons]
          split <;> omega]
    have hdt : List.take 2 (List.drop 6 (mkUbxFrame 5 ri (b0 :: b1 :: tail))) =
        [b0, b1] := rfl
    have h256 : (2 : Nat) ^ 8 = 256 := by norm_num
    have hsh : (5 * 256 + ri) >>> 8 = 5 := by
      rw [Nat.shiftRight_eq_div_pow, h256]
      omega
    have hand : 5 * 256 + ri &&& 255 = ri := by
      rw [show 5 * 256 + ri = 256 * 5 + ri from by ring]
      exact byte_land_255 hri
    rw [hdt, hsh, hand]
    simp only [List.getD_cons_zero, List.getD_cons_succ]
    by_cases hb : b0 = mc ∧ b1 = mi
    · rw [if_pos (show ((2 : Nat) : Int) = 2 ∧ ((5 : Nat) : Int) = 5 ∧ b0 = mc ∧
            b1 = mi from ⟨by norm_num, by norm_num, hb.1, hb.2⟩)]
      rw [if_pos trivial, if_pos hb]
      by_cases hri1 : ri = 1
      · subst hri1
        norm_num
      · rw [if_neg (show ¬((ri : Nat) : Int) = 1 from by omega), if_neg hri1]
    · rw [if_neg (show ¬(((2 : Nat) : Int) = 2 ∧ ((5 : Nat) : Int) = 5 ∧ b0 = mc ∧
            b1 = mi) from by
            rintro ⟨-, -, h1, h2⟩
            exact hb ⟨h1, h2⟩)]
      rw [if_pos trivial, if_neg hb]
  · have hmf : ubxIdMatch (rc * 256 + ri) 1535 = false := by
      rw [ubxIdMatch_ackWanted rc ri hri]
      exact decide_eq_false hrc5
    have hne : rc * 256 + ri ≠ 1280 := by
      intro h
      apply hrc5
      omega
    rw [receive_alloc_nomatch 1535 rc ri (b0 :: b1 :: tail) hblen hmf hne]
    simp only []
    rw [if_neg (show ¬((U_ERROR_COMMON_TIMEOUT : Int) ≥ 8) from by decide)]
    simp only []
    rw [if_neg hrc5]
    norm_num [U_ERROR_COMMON_TIMEOUT]

end UGnss

namespace UGnss

/-- Claim C2 (amended): when a frame matching the wanted pattern is
decoded and the caller's buffer of size s is smaller than the frame's
total length L, the code copies the first s bytes and records L - s as
discard, but the claim's conclusion fails in both timeout regimes:
with timeoutMs = 0 the function returns the truncated length s while the
discard is still pending and the cursor still holds the frame's tail
(the skip never happens); with time remaining on the deadline the
pending discard forces another loop iteration whose failed re-decode
overwrites errorCodeOrLength, so the function returns the timeout error
and the truncated match result is lost. -/
theorem claim_C2 (w cls id s : Nat) (body : List Nat)
    (hlen : body.length < 65536)
    (hm : ubxIdMatch (cls * 256 + id) w = true)
    (hs : 0 < s) (hsL : s < 8 + body.length) :
    (uGnssPrivateReceiveStreamMessage (fun _ => []) (.ubx w) true s true 0
        (fun _ => true) ⟨mkUbxFrame cls id body, 0, 0⟩ 1 =
      some ((s : Int),
        ⟨⟨(mkUbxFrame cls id body).drop s, 1, 0⟩,
         (mkUbxFrame cls id body).take s, true, s, 8 + body.length - s,
         (s : Int), .ubx (cls * 256 + id)⟩)) ∧
    (∃ c', uGnssPrivateReceiveStreamMessage (fun _ => []) (.ubx w) true s true 200
        (fun _ => true) ⟨mkUbxFrame cls id body, 0, 0⟩ 7 =
      some (U_ERROR_COMMON_TIMEOUT,
        ⟨⟨[], c', 0⟩, (mkUbxFrame cls id body).take s, true, s, 0,
         U_ERROR_COMMON_TIMEOUT, .ubx w⟩)) :=
  ⟨recvTruncNoTimeout w cls id s body hlen hm hs hsL,
   recvTruncTimeout w cls id s body hlen hm hs hsL⟩

/-- Counterexample for claim C2 as stated: a wanted 8-byte frame is at
the cursor, the caller's buffer holds 2 bytes, and 200 ms remain; the
claim says the call returns the truncated match (2), but it returns the
timeout error -9. -/
theorem claim_C2_counterexample :
    (uGnssPrivateReceiveStreamMessage (fun _ => []) (.ubx 0x0107) true 2 true 200
        (fun _ => true) ⟨mkUbxFrame 1 7 [], 0, 0⟩ 20).map Prod.fst =
      some U_ERROR_COMMON_TIMEOUT := by
  decide

/-- Witness for claim C2 at concrete inputs: an 8-byte UBX frame of
class 1 id 7, wanted pattern 0x0107, caller buffer of 2 bytes. -/
theorem claim_C2_witness :
    (uGnssPrivateReceiveStreamMessage (fun _ => []) (.ubx 0x0107) true 2 true 0
        (fun _ => true) ⟨mkUbxFrame 1 7 [], 0, 0⟩ 1 =
      some ((2 : Int),
        ⟨⟨(mkUbxFrame 1 7 []).drop 2, 1, 0⟩, (mkUbxFrame 1 7 []).take 2, true, 2,
         8 + ([] : List Nat).length - 2, (2 : Int), .ubx (1 * 256 + 7)⟩)) ∧
    (∃ c', uGnssPrivateReceiveStreamMessage (fun _ => []) (.ubx 0x0107) true 2 true
        200 (fun _ => true) ⟨mkUbxFrame 1 7 [], 0, 0⟩ 7 =
      some (U_ERROR_COMMON_TIMEOUT,
        ⟨⟨[], c', 0⟩, (mkUbxFrame 1 7 []).take 2, true, 2, 0,
         U_ERROR_COMMON_TIMEOUT, .ubx 0x0107⟩)) :=
  claim_C2 0x0107 1 7 2 [] (by decide) (by decide) (by decide) (by decide)

/-- Counterexample for claim C5 as stated: a response of class 5 with id
2 (neither ACK-ACK id 1 nor ACK-NACK id 0) whose body prefix matches the
sent class/id is classified as the dedicated NACK error, and an ACK-ACK
response with a 3-byte body (not a 2-byte body equal to the sent
class/id) is classified as success. -/
theorem claim_C5_counterexample :
    uGnssPrivateSendUbxMessage (fun _ => []) 6 1 0
        ⟨mkUbxFrame 5 2 [6, 1], 0, 0⟩ 1 = some U_GNSS_ERROR_NACK ∧
    uGnssPrivateSendUbxMessage (fun _ => []) 6 1 0
        ⟨mkUbxFrame 5 1 [6, 1, 0], 0, 0⟩ 1 = some U_ERROR_COMMON_SUCCESS :=
  ⟨by decide, by decide⟩

/-- Witness for claim C5 at concrete inputs: an exact ACK-ACK response
(class 5, id 1, body = sent class/id) yields success, and a class-4
response yields the generic unknown error. -/
theorem claim_C5_witness :
    uGnssPrivateSendUbxMessage (fun _ => []) 6 1 0
        ⟨mkUbxFrame 5 1 [6, 1], 0, 0⟩ 1 = some U_ERROR_COMMON_SUCCESS ∧
    uGnssPrivateSendUbxMessage (fun _ => []) 6 1 0
        ⟨mkUbxFrame 4 1 [6, 1], 0, 0⟩ 1 = some U_ERROR_COMMON_UNKNOWN :=
  ⟨claim_C5 6 1 5 1 6 1 [] (by decide) (by decide) (by decide),
   claim_C5 6 1 4 1 6 1 [] (by decide) (by decide) (by decide)⟩

end UGnss
